import Mathlib

/-!
# Tungsten `TraceBase`: light selection, shadow rays, direct lighting, bounce handlers

A shallow embedding of `src/core/integrators/TraceBase.cpp`, and of the block
bookkeeping of `src/json2xml/JsonXmlConverter.hpp`.

Conventions of the embedding:
* `float` values are exact rationals (`ℚ`); rounding, infinities and NaN are
  not modelled.
* `int` values are integers (`Int`).  The increment `bounce++` of the shadow
  ray walk and the arithmetic of the volume handler wrap at 32 bits
  (`int32Wrap`), as the compiled code does.
* Pointers to collaborator objects (primitives, BSDFs, media) are natural
  numbers; a nullable pointer is an `Option`.  The virtual methods of the
  collaborators are fields of `TraceableScene` and `SamplingOracles`.
* A float division by zero has no rational value: routines that divide return
  an `Option`, `none` standing for a division by zero.
-/

namespace Tungsten

/-! ## Vectors, rays and frames -/

/-- Three-component float vector (`Vec3f`). -/
structure Vec3f where
  x : ℚ
  y : ℚ
  z : ℚ
deriving DecidableEq

namespace Vec3f

/-- Broadcasting constructor `Vec3f(a)`. -/
def splat (a : ℚ) : Vec3f := ⟨a, a, a⟩

/-- Componentwise product `a*b`. -/
def mul (a b : Vec3f) : Vec3f := ⟨a.x * b.x, a.y * b.y, a.z * b.z⟩

/-- Componentwise sum `a + b`. -/
def add (a b : Vec3f) : Vec3f := ⟨a.x + b.x, a.y + b.y, a.z + b.z⟩

/-- Product with a scalar `a*s`. -/
def scale (a : Vec3f) (s : ℚ) : Vec3f := ⟨a.x * s, a.y * s, a.z * s⟩

/-- Unary minus. -/
def neg (a : Vec3f) : Vec3f := ⟨-a.x, -a.y, -a.z⟩

/-- Dot product `a.dot(b)`. -/
def dot (a b : Vec3f) : ℚ := a.x * b.x + a.y * b.y + a.z * b.z

/-- Comparison with a scalar, `v == a`: every component equals `a`. -/
def eqScalar (v : Vec3f) (a : ℚ) : Bool :=
  decide (v.x = a) && decide (v.y = a) && decide (v.z = a)

end Vec3f

/-- Ray with its parametric bounds and the "primary" flag. -/
structure Ray where
  pos : Vec3f
  dir : Vec3f
  nearT : ℚ
  farT : ℚ
  primaryRay : Bool

/-- End point of the ray, `ray.hitpoint()`: `pos + dir*farT`. -/
def Ray.hitpoint (r : Ray) : Vec3f := r.pos.add (r.dir.scale r.farT)

/-- Local shading frame. -/
structure TangentFrame where
  normal : Vec3f
  tangent : Vec3f
  bitangent : Vec3f

/-- Modelled from the spec: `TangentFrame::toLocal` (the header is not among the
sources) expresses a direction in the local orthonormal shading frame; the
local z is the component along the frame normal. -/
def TangentFrame.toLocal (f : TangentFrame) (p : Vec3f) : Vec3f :=
  ⟨f.tangent.dot p, f.bitangent.dot p, f.normal.dot p⟩

/-! ## Collaborators -/

/-- Pointer to a primitive (lights are primitives). -/
abbrev PrimitivePtr := Nat

/-- Pointer to a BSDF. -/
abbrev BsdfPtr := Nat

/-- Pointer to a medium. -/
abbrev MediumPtr := Nat

/-- Primitive-specific cached data of an intersection; opaque to the tracer. -/
structure IntersectionTemporary where
  cache : Nat

/-- Hit record produced by the scene query. -/
structure IntersectionInfo where
  Ng : Vec3f
  Ns : Vec3f
  p : Vec3f
  w : Vec3f
  epsilon : ℚ
  primitive : PrimitivePtr
  bsdf : BsdfPtr

/-- Answers of a lobe capability mask (`BsdfLobes`) to the queries the tracer makes. -/
structure BsdfLobes where
  isTransmissive : Bool
  isPureSpecular : Bool
  isForward : Bool
  hasSpecular : Bool

/-- The lobe masks the tracer requests from a BSDF. -/
inductive RequestedLobe where
  | AllLobes
  | AllButSpecular
  | ForwardLobe
deriving DecidableEq

/-- Surface scatter event.  The two sampler pointers of the C++ event are left
out: sampler state is passed explicitly. -/
structure SurfaceScatterEvent where
  info : IntersectionInfo
  frame : TangentFrame
  wi : Vec3f
  wo : Vec3f
  throughput : Vec3f
  pdf : ℚ
  requestedLobe : RequestedLobe
  flippedFrame : Bool
  /-- The lobe the BSDF sampled; not set by the constructor (placeholder answers). -/
  sampledLobe : BsdfLobes := ⟨false, false, false, false⟩

/-- Modelled from the spec: `SurfaceScatterEvent::makeForwardEvent` (the header is
not among the sources) is the query of the pure pass-through response: the
outgoing direction is the opposite of the incoming one ("wi = -wo", source
lines 77 and 471) and the forward lobe is requested. -/
def SurfaceScatterEvent.makeForwardEvent (e : SurfaceScatterEvent) : SurfaceScatterEvent :=
  { e with wo := e.wi.neg, requestedLobe := RequestedLobe.ForwardLobe }

/-- Volume scatter event; the three-argument constructor sets `p`, `wi` and `maxT`
and leaves the other fields unset (placeholder values). -/
structure VolumeScatterEvent where
  p : Vec3f
  wi : Vec3f
  maxT : ℚ
  wo : Vec3f := ⟨0, 0, 0⟩
  t : ℚ := 0
  throughput : Vec3f := ⟨1, 1, 1⟩
  pdf : ℚ := 1
  /-- The throughput of the path so far, given to the six-argument constructor. -/
  currentThroughput : Vec3f := ⟨1, 1, 1⟩

/-- Settings of the tracer (`TraceSettings`). -/
structure TraceSettings where
  enableConsistencyChecks : Bool
  enableTwoSidedShading : Bool
  minBounces : Int
  maxBounces : Int

/-- The scene and the objects it owns.  `intersect` follows the contract
`intersect(ray) -> hit|none` of the scene query: it returns the ray with its
updated bounds and, on a hit, the hit record (whose primitive is then not
null); on a miss `info.primitive` is null.  The other fields are the virtual
methods of primitives, BSDFs and media, keyed by the object's pointer. -/
structure TraceableScene where
  lights : List PrimitivePtr
  intersect : Ray → Ray × Option (IntersectionTemporary × IntersectionInfo)
  approximateRadiance : PrimitivePtr → Nat → Vec3f → ℚ
  setupTangentFrame : PrimitivePtr → IntersectionTemporary → IntersectionInfo → TangentFrame
  hitBackside : PrimitivePtr → IntersectionTemporary → Bool
  lobes : BsdfPtr → BsdfLobes
  eval : BsdfPtr → SurfaceScatterEvent → Bool → Vec3f
  selectMedium : BsdfPtr → Option MediumPtr → Bool → Option MediumPtr
  transmittance : MediumPtr → VolumeScatterEvent → Vec3f

/-- The members of `TraceBase`.  The constructor sizes `_lightPdf` to the number
of lights of the scene. -/
structure TraceBase where
  scene : TraceableScene
  settings : TraceSettings
  threadId : Nat
  lightPdf : List ℚ

/-! ## Scatter events and the consistency check (lines 24-61) -/

/-- `TraceBase::makeLocalScatterEvent` (lines 24-52). -/
def makeLocalScatterEvent (tb : TraceBase) (data : IntersectionTemporary)
    (info : IntersectionInfo) (ray : Ray) : SurfaceScatterEvent :=
  let frame := tb.scene.setupTangentFrame info.primitive data info
  let hitBackside := decide (frame.normal.dot ray.dir > 0)
  let isTransmissive := (tb.scene.lobes info.bsdf).isTransmissive
  let flipFrame := tb.settings.enableTwoSidedShading && hitBackside && !isTransmissive
  let frame : TangentFrame :=
    if flipFrame then { frame with normal := frame.normal.neg, tangent := frame.tangent.neg }
    else frame
  { info := info
    frame := frame
    wi := frame.toLocal ray.dir.neg
    wo := Vec3f.splat 0
    throughput := Vec3f.splat 1
    pdf := 1
    requestedLobe := RequestedLobe.AllLobes
    flippedFrame := flipFrame }

/-- `TraceBase::isConsistent` (lines 54-61). -/
def isConsistent (tb : TraceBase) (event : SurfaceScatterEvent) (w : Vec3f) : Bool :=
  if !tb.settings.enableConsistencyChecks then true
  else
    let geometricBackside := decide (w.dot event.info.Ng < 0)
    let shadingBackside := xor (decide (event.wo.z < 0)) event.flippedFrame
    geometricBackside == shadingBackside

/-! ## Generalized shadow ray (lines 63-101) -/

/-- The value of a 32-bit `int` after an arithmetic result `n` that may have left
the range `-2^31 .. 2^31 - 1`: two's complement wrap-around. -/
def int32Wrap (n : Int) : Int := (n + 2147483648) % 4294967296 - 2147483648

/-- The variables the loop of `generalizedShadowRay` carries from one iteration to the next. -/
structure ShadowState where
  ray : Ray
  medium : Option MediumPtr
  bounce : Int
  initialFarT : ℚ
  throughput : Vec3f

/-- Outcome of one iteration of the loop: a `return`, or the state of the next iteration. -/
inductive ShadowStep where
  | done (value : Vec3f)
  | next (s : ShadowState)

/-- One iteration of the `do ... while(true)` loop (lines 74-98).  It makes exactly
one scene intersection query (line 74). -/
def shadowRayIteration (tb : TraceBase) (endCap : Option PrimitivePtr) (s : ShadowState) :
    ShadowStep :=
  let q := tb.scene.intersect s.ray
  let ray := q.1
  -- lines 74-87: `none` stands for the two `return Vec3f(0.0f)`
  let surface : Option (Vec3f × Int) :=
    match q.2 with
    | some (data, info) =>
      if some info.primitive ≠ endCap then
        let event := makeLocalScatterEvent tb data info ray
        let transmittance := tb.scene.eval info.bsdf event.makeForwardEvent false
        if transmittance.eqScalar 0 then none
        else
          let throughput := s.throughput.mul transmittance
          let bounce := int32Wrap (s.bounce + 1)
          if bounce ≥ tb.settings.maxBounces then none
          else some (throughput, bounce)
      else some (s.throughput, s.bounce)
    | none => some (s.throughput, s.bounce)
  match surface with
  | none => ShadowStep.done (Vec3f.splat 0)
  | some (throughput, bounce) =>
    -- lines 89-90
    let throughput :=
      match s.medium with
      | some m => throughput.mul
          (tb.scene.transmittance m { p := ray.pos, wi := ray.dir, maxT := ray.farT })
      | none => throughput
    -- lines 91-98
    match q.2 with
    | none =>
      ShadowStep.done (if bounce ≥ tb.settings.minBounces then throughput else Vec3f.splat 0)
    | some (data, info) =>
      if some info.primitive = endCap then
        ShadowStep.done (if bounce ≥ tb.settings.minBounces then throughput else Vec3f.splat 0)
      else
        let medium := tb.scene.selectMedium info.bsdf s.medium (!tb.scene.hitBackside info.primitive data)
        let initialFarT := s.initialFarT - ray.farT
        ShadowStep.next
          { ray := { ray with pos := ray.hitpoint, nearT := info.epsilon, farT := initialFarT }
            medium := medium
            bounce := bounce
            initialFarT := initialFarT
            throughput := throughput }

/-- The loop of `generalizedShadowRay`, run for at most `fuel` iterations: the
returned value together with the number of scene intersection queries made,
or `none` when the fuel does not suffice. -/
def shadowRayLoop (tb : TraceBase) (endCap : Option PrimitivePtr) :
    Nat → ShadowState → Option (Vec3f × Nat)
  | 0, _ => none
  | fuel + 1, s =>
    match shadowRayIteration tb endCap s with
    | ShadowStep.done value => some (value, 1)
    | ShadowStep.next s' =>
      (shadowRayLoop tb endCap fuel s').map (fun r => (r.1, r.2 + 1))

/-- The loop variables on entry of the loop (lines 71-72). -/
def shadowRayInit (ray : Ray) (medium : Option MediumPtr) (bounce : Int) : ShadowState :=
  { ray := ray, medium := medium, bounce := bounce, initialFarT := ray.farT,
    throughput := Vec3f.splat 1 }

/-- `TraceBase::generalizedShadowRay` (lines 63-101), the loop being given `fuel`
iterations: the returned value and the number of scene intersection queries. -/
def generalizedShadowRay (tb : TraceBase) (fuel : Nat) (ray : Ray) (medium : Option MediumPtr)
    (endCap : Option PrimitivePtr) (bounce : Int) : Option (Vec3f × Nat) :=
  shadowRayLoop tb endCap fuel (shadowRayInit ray medium bounce)

/-- The state reached after `n` iterations of the loop, when none of them returns. -/
def shadowRayReach (tb : TraceBase) (endCap : Option PrimitivePtr) :
    Nat → ShadowState → Option ShadowState
  | 0, s => some s
  | n + 1, s =>
    match shadowRayIteration tb endCap s with
    | ShadowStep.done _ => none
    | ShadowStep.next s' => shadowRayReach tb endCap n s'

/-! ## Multiple importance sampling weights -/

/-- Modelled from the spec: `SampleWarp::powerHeuristic` (the header is not among
the sources), the power-heuristic weight `weight(a,b) = a²/(a²+b²)`. -/
def powerHeuristic (pdf0 pdf1 : ℚ) : ℚ := (pdf0 * pdf0) / (pdf0 * pdf0 + pdf1 * pdf1)

/-- The factor `lightSample` applies to its contribution (lines 206-207):
the power heuristic of (light pdf, BSDF pdf), unless the light is Dirac. -/
def lightSampleMisWeight (isDirac : Bool) (samplePdf bsdfPdf : ℚ) : ℚ :=
  if !isDirac then powerHeuristic samplePdf bsdfPdf else 1

/-- The factor `bsdfSample` applies to its contribution (line 243):
the power heuristic of (BSDF pdf, light pdf). -/
def bsdfSampleMisWeight (eventPdf lightPdf : ℚ) : ℚ :=
  powerHeuristic eventPdf lightPdf

/-! ## Light selection (`TraceBase::chooseLight`, lines 344-387) -/

/-- Sample generator: an infinite sequence of draws and a read position. -/
structure SampleGenerator where
  draws : Nat → ℚ
  pos : Nat

/-- One call of `next1D()`: the draw at the read position, and the advanced generator. -/
def SampleGenerator.next1D (s : SampleGenerator) : ℚ × SampleGenerator :=
  (s.draws s.pos, { s with pos := s.pos + 1 })

/-- First loop of `chooseLight` (lines 355-361) over the remaining lights: stores
every light's approximate radiance and accumulates the sum and the number of
the non-negative ones. -/
def gatherRadiance (approx : PrimitivePtr → ℚ) : List PrimitivePtr → ℚ → Nat → List ℚ × ℚ × Nat
  | [], total, numNonNegative => ([], total, numNonNegative)
  | l :: ls, total, numNonNegative =>
    let r := approx l
    if r ≥ 0 then
      let rest := gatherRadiance approx ls (total + r) (numNonNegative + 1)
      (r :: rest.1, rest.2)
    else
      let rest := gatherRadiance approx ls total numNonNegative
      (r :: rest.1, rest.2)

/-- Loop of lines 367-373 over the remaining entries: every negative entry is
overwritten by `uniformWeight`, which is recomputed from the running `total`
at every index. -/
def fillUnknown (numNonNegative : Nat) : List ℚ → ℚ → List ℚ × ℚ
  | [], total => ([], total)
  | w :: ws, total =>
    let uniformWeight := (if total = 0 then 1 else total) / (numNonNegative : ℚ)
    if w < 0 then
      let rest := fillUnknown numNonNegative ws (total + uniformWeight)
      (uniformWeight :: rest.1, rest.2)
    else
      let rest := fillUnknown numNonNegative ws total
      (w :: rest.1, rest.2)

/-- Lines 353-374: the contents of `_lightPdf` and the value of `total` once the
weights have been set up from the lights' approximate radiances. -/
def lightWeights (approx : PrimitivePtr → ℚ) (lights : List PrimitivePtr) : List ℚ × ℚ :=
  let g := gatherRadiance approx lights 0 0
  let lightPdf := g.1
  let total := g.2.1
  let numNonNegative := g.2.2
  if numNonNegative = 0 then
    (lightPdf.map (fun _ => 1), (lightPdf.length : ℚ))
  else if numNonNegative < lightPdf.length then
    fillUnknown numNonNegative lightPdf total
  else
    (lightPdf, total)

/-- Scan of lines 378-385 over the remaining entries, `i` being the index of the
first of them and `t` the remaining part of the draw: the index of the chosen
light and the selection weight. -/
def scanLights (total : ℚ) : List ℚ → Nat → ℚ → Option (Nat × ℚ)
  | [], _, _ => none
  | w :: ws, i, t =>
    if t < w ∨ ws.isEmpty then some (i, total / w)
    else scanLights total ws (i + 1) (t - w)

/-- What a call of `chooseLight` leaves behind: the chosen light (its index in
`lights()`, the returned pointer being `lights()[i]`) with the selection
weight, or `none` for `nullptr`; the contents of `_lightPdf`; the sampler; and
the number of `approximateRadiance` queries made. -/
structure ChooseLightResult where
  chosen : Option (Nat × ℚ)
  lightPdf : List ℚ
  sampler : SampleGenerator
  radianceQueries : Nat

/-- `TraceBase::chooseLight` (lines 344-387).  The loops run over the
`_lightPdf.size()` indices, which the constructor makes the number of lights. -/
def chooseLight (tb : TraceBase) (sampler : SampleGenerator) (p : Vec3f) : ChooseLightResult :=
  if tb.scene.lights.isEmpty then
    { chosen := none, lightPdf := tb.lightPdf, sampler := sampler, radianceQueries := 0 }
  else if tb.scene.lights.length = 1 then
    { chosen := some (0, 1), lightPdf := tb.lightPdf, sampler := sampler, radianceQueries := 0 }
  else
    let weights := lightWeights (fun l => tb.scene.approximateRadiance l tb.threadId p) tb.scene.lights
    let lightPdf := weights.1
    let total := weights.2
    if total = 0 then
      { chosen := none, lightPdf := lightPdf, sampler := sampler,
        radianceQueries := tb.scene.lights.length }
    else
      let draw := sampler.next1D
      let t := draw.1 * total
      { chosen := scanLights total lightPdf 0 t, lightPdf := lightPdf, sampler := draw.2,
        radianceQueries := tb.scene.lights.length }

/-! ## Direct lighting (lines 103-128 and 171-342) -/

/-- Division of a vector by a float, `v/d`.  A division by zero yields infinities
or NaN, which are not rationals: it is `none`. -/
def Vec3f.divScalar (v : Vec3f) (d : ℚ) : Option Vec3f :=
  if d = 0 then none else some ⟨v.x / d, v.y / d, v.z / d⟩

/-- Modelled from the spec: `Vec3f::avg` (the header is not among the sources), the
average value of the three components. -/
def Vec3f.avg (v : Vec3f) : ℚ := (v.x + v.y + v.z) / 3

/-- Modelled from the spec: `TangentFrame::toGlobal` (the header is not among the
sources) maps a direction of the local shading frame back to world space. -/
def TangentFrame.toGlobal (f : TangentFrame) (p : Vec3f) : Vec3f :=
  ((f.tangent.scale p.x).add (f.bitangent.scale p.y)).add (f.normal.scale p.z)

/-- Stand-in for the far bound of a ray without an end. -/
def Ray.infinity : ℚ := 10 ^ 30

/-- Modelled from the spec: `Ray::scatter` (the header is not among the sources)
copies the ray and restarts it at a new position, with a new direction and a
new near bound; the far bound is open again. -/
def Ray.scatter (r : Ray) (pos dir : Vec3f) (nearT : ℚ) : Ray :=
  { r with pos := pos, dir := dir, nearT := nearT, farT := Ray.infinity }

/-- A direction sampled towards a light (`LightSample`), for the shading point `p`. -/
structure LightSample where
  p : Vec3f
  d : Vec3f
  dist : ℚ
  pdf : ℚ

/-- The calls of the direct-lighting code that the embedding records. -/
inductive Effect where
  | lightDirectionSample (light : PrimitivePtr)
  | bsdfSample (bsdf : BsdfPtr)
  | phaseSample (medium : MediumPtr)
  | shadowRay (endCap : PrimitivePtr)
deriving DecidableEq

/-- Per-path state of a medium (`Medium::MediumState`); opaque to the tracer. -/
abbrev MediumState := Nat

/-- The sampling, emission and phase-function methods of primitives, BSDFs and
media that `TraceableScene` does not list, keyed by the object's pointer.
Methods that draw random numbers take the sampler and return it advanced;
methods that fill an event return the event. -/
structure SamplingOracles where
  isDirac : PrimitivePtr → Bool
  isSamplable : PrimitivePtr → Bool
  sampleInboundDirection :
    PrimitivePtr → Nat → Vec3f → SampleGenerator → Option LightSample × SampleGenerator
  inboundPdf :
    PrimitivePtr → Nat → IntersectionTemporary → IntersectionInfo → Vec3f → Vec3f → ℚ
  lightIntersect : PrimitivePtr → Ray → Option (Ray × IntersectionTemporary)
  intersectionInfo : PrimitivePtr → IntersectionTemporary → IntersectionInfo → IntersectionInfo
  emission : PrimitivePtr → IntersectionTemporary → IntersectionInfo → Vec3f
  bsdfSample :
    BsdfPtr → SurfaceScatterEvent → Bool → SampleGenerator →
      Bool × SurfaceScatterEvent × SampleGenerator
  bsdfPdf : BsdfPtr → SurfaceScatterEvent → ℚ
  phaseEval : MediumPtr → VolumeScatterEvent → Vec3f
  phasePdf : MediumPtr → VolumeScatterEvent → ℚ
  scatter :
    MediumPtr → VolumeScatterEvent → SampleGenerator →
      Bool × VolumeScatterEvent × SampleGenerator
  stateReset : MediumState → MediumState

/-- A number of iterations within which the loop of `generalizedShadowRay` returns
for 32-bit values of `maxBounces` and `bounce`: `max(1, maxBounces - bounce)`
below `INT_MAX`, and one more than the walk from `INT_MIN` needs when the
first increment wraps. -/
def shadowRayFuel (maxBounces bounce : Int) : Nat :=
  if bounce < 2147483647 then (max 1 (maxBounces - bounce)).toNat
  else (max 1 (maxBounces + 2147483648)).toNat + 1

/-- The value `generalizedShadowRay` returns, the loop being given the
`shadowRayFuel` iterations within which it returns. -/
def generalizedShadowRayValue (tb : TraceBase) (ray : Ray) (medium : Option MediumPtr)
    (endCap : Option PrimitivePtr) (bounce : Int) : Vec3f :=
  match generalizedShadowRay tb (shadowRayFuel tb.settings.maxBounces bounce) ray medium
      endCap bounce with
  | some r => r.1
  | none => Vec3f.splat 0

/-- The locals `IntersectionTemporary data` of the sampling routines before they are filled. -/
def IntersectionTemporary.blank : IntersectionTemporary := ⟨0⟩

/-- The locals `IntersectionInfo info` of the sampling routines before they are filled. -/
def IntersectionInfo.blank : IntersectionInfo :=
  ⟨⟨0, 0, 0⟩, ⟨0, 0, 0⟩, ⟨0, 0, 0⟩, ⟨0, 0, 0⟩, 0, 0, 0⟩

/-- The tolerance `fudgeFactor` of `attenuatedEmission` (line 111). -/
def fudgeFactor : ℚ := 1 + 1 / 1000

/-- What `attenuatedEmission` leaves behind: the returned value, the filled `data`
and `info`, and the recorded calls. -/
structure AttenuatedEmission where
  value : Vec3f
  data : IntersectionTemporary
  info : IntersectionInfo
  trace : List Effect

/-- Lines 113-118 of `attenuatedEmission`: the ray and `data` with which the light
is reached, or `none` for the `return Vec3f(0.0f)` of line 117. -/
def resolveLightHit (env : SamplingOracles) (light : PrimitivePtr) (expectedDist : ℚ)
    (data : IntersectionTemporary) (ray : Ray) : Option (Ray × IntersectionTemporary) :=
  if env.isDirac light then some ({ ray with farT := expectedDist }, data)
  else
    match env.lightIntersect light ray with
    | none => none
    | some (ray', data') =>
      if ray'.farT * fudgeFactor < expectedDist then none else some (ray', data')

/-- `TraceBase::attenuatedEmission` (lines 103-128). -/
def attenuatedEmission (tb : TraceBase) (env : SamplingOracles) (light : PrimitivePtr)
    (medium : Option MediumPtr) (expectedDist : ℚ) (data : IntersectionTemporary)
    (info : IntersectionInfo) (bounce : Int) (ray : Ray) : AttenuatedEmission :=
  match resolveLightHit env light expectedDist data ray with
  | none => { value := Vec3f.splat 0, data := data, info := info, trace := [] }
  | some (ray, data) =>
    let info := { info with p := ray.pos.add (ray.dir.scale ray.farT), w := ray.dir }
    let info := env.intersectionInfo light data info
    let transmittance := generalizedShadowRayValue tb ray medium (some light) bounce
    if transmittance.eqScalar 0 then
      { value := Vec3f.splat 0, data := data, info := info, trace := [Effect.shadowRay light] }
    else
      { value := transmittance.mul (env.emission light data info), data := data, info := info,
        trace := [Effect.shadowRay light] }

/-- What a sampling routine leaves behind: the returned value (`none` when a
division by zero was performed), the scatter event, the sampler and the
recorded calls. -/
structure DirectSample (ε : Type) where
  value : Option Vec3f
  event : ε
  sampler : SampleGenerator
  trace : List Effect

/-- The terms of the light-sampling contribution: BSDF or phase response `f`,
attenuated emission `e` and the sample with its pdf. -/
structure LightTerms where
  f : Vec3f
  e : Vec3f
  sample : LightSample

/-- Lines 177-202 of `TraceBase::lightSample`: the terms of the contribution, or
`none` for the `return Vec3f(0.0f)` of lines 180, 184, 193 and 202. -/
def lightSampleTerms (tb : TraceBase) (env : SamplingOracles) (light : PrimitivePtr)
    (event : SurfaceScatterEvent) (medium : Option MediumPtr) (bounce : Int) (parentRay : Ray)
    (sampler : SampleGenerator) :
    Option LightTerms × SurfaceScatterEvent × SampleGenerator × List Effect :=
  let drawn := env.sampleInboundDirection light tb.threadId event.info.p sampler
  match drawn.1 with
  | none => (none, event, drawn.2, [Effect.lightDirectionSample light])
  | some sample =>
    let event := { event with wo := event.frame.toLocal sample.d }
    if !isConsistent tb event sample.d then
      (none, event, drawn.2, [Effect.lightDirectionSample light])
    else
      let geometricBackside := decide (sample.d.dot event.info.Ng < 0)
      let medium := tb.scene.selectMedium event.info.bsdf medium geometricBackside
      let event := { event with requestedLobe := RequestedLobe.AllButSpecular }
      let f := tb.scene.eval event.info.bsdf event false
      if f.eqScalar 0 then (none, event, drawn.2, [Effect.lightDirectionSample light])
      else
        let ray := { parentRay.scatter sample.p sample.d event.info.epsilon with
          primaryRay := false }
        let e := attenuatedEmission tb env light medium sample.dist IntersectionTemporary.blank
          IntersectionInfo.blank bounce ray
        if e.value.eqScalar 0 then
          (none, event, drawn.2, Effect.lightDirectionSample light :: e.trace)
        else
          (some ⟨f, e.value, sample⟩, event, drawn.2,
            Effect.lightDirectionSample light :: e.trace)

/-- `TraceBase::lightSample` (lines 171-210). -/
def lightSample (tb : TraceBase) (env : SamplingOracles) (light : PrimitivePtr)
    (event : SurfaceScatterEvent) (medium : Option MediumPtr) (bounce : Int) (parentRay : Ray)
    (sampler : SampleGenerator) : DirectSample SurfaceScatterEvent :=
  let r := lightSampleTerms tb env light event medium bounce parentRay sampler
  match r.1 with
  | none => { value := some (Vec3f.splat 0), event := r.2.1, sampler := r.2.2.1, trace := r.2.2.2 }
  | some terms =>
    -- line 204
    let lightF := (terms.f.mul terms.e).divScalar terms.sample.pdf
    -- lines 206-207
    let lightF :=
      if !env.isDirac light then
        lightF.map (fun v =>
          v.scale (powerHeuristic terms.sample.pdf (env.bsdfPdf r.2.1.info.bsdf r.2.1)))
      else lightF
    { value := lightF, event := r.2.1, sampler := r.2.2.1, trace := r.2.2.2 }

/-- `TraceBase::bsdfSample` (lines 212-246). -/
def bsdfSample (tb : TraceBase) (env : SamplingOracles) (light : PrimitivePtr)
    (event : SurfaceScatterEvent) (medium : Option MediumPtr) (bounce : Int) (parentRay : Ray)
    (sampler : SampleGenerator) : DirectSample SurfaceScatterEvent :=
  let event := { event with requestedLobe := RequestedLobe.AllButSpecular }
  let drawn := env.bsdfSample event.info.bsdf event false sampler
  let event := drawn.2.1
  let zero (trace : List Effect) : DirectSample SurfaceScatterEvent :=
    { value := some (Vec3f.splat 0), event := event, sampler := drawn.2.2, trace := trace }
  if !drawn.1 then zero [Effect.bsdfSample event.info.bsdf]
  else if event.throughput.eqScalar 0 then zero [Effect.bsdfSample event.info.bsdf]
  else
    let wo := event.frame.toGlobal event.wo
    if !isConsistent tb event wo then zero [Effect.bsdfSample event.info.bsdf]
    else
      let geometricBackside := decide (wo.dot event.info.Ng < 0)
      let medium := tb.scene.selectMedium event.info.bsdf medium geometricBackside
      let ray := { parentRay.scatter event.info.p wo event.info.epsilon with primaryRay := false }
      let e := attenuatedEmission tb env light medium (-1) IntersectionTemporary.blank
        IntersectionInfo.blank bounce ray
      if e.value = Vec3f.splat 0 then zero (Effect.bsdfSample event.info.bsdf :: e.trace)
      else
        let bsdfF := e.value.mul event.throughput
        let bsdfF := bsdfF.scale
          (powerHeuristic event.pdf (env.inboundPdf light tb.threadId e.data e.info event.info.p wo))
        { value := some bsdfF, event := event, sampler := drawn.2.2,
          trace := Effect.bsdfSample event.info.bsdf :: e.trace }

/-- `TraceBase::sampleDirect` (lines 310-326). -/
def sampleDirect (tb : TraceBase) (env : SamplingOracles) (light : PrimitivePtr)
    (event : SurfaceScatterEvent) (medium : Option MediumPtr) (bounce : Int) (parentRay : Ray)
    (sampler : SampleGenerator) : DirectSample SurfaceScatterEvent :=
  if (tb.scene.lobes event.info.bsdf).isPureSpecular || (tb.scene.lobes event.info.bsdf).isForward
  then { value := some (Vec3f.splat 0), event := event, sampler := sampler, trace := [] }
  else
    let l := lightSample tb env light event medium bounce parentRay sampler
    let result := l.value.map (fun v => (Vec3f.splat 0).add v)
    if !env.isDirac light then
      let b := bsdfSample tb env light l.event medium bounce parentRay l.sampler
      { value := result.bind (fun r => b.value.map (fun v => r.add v)), event := b.event,
        sampler := b.sampler, trace := l.trace ++ b.trace }
    else
      { value := result, event := l.event, sampler := l.sampler, trace := l.trace }

/-- Lines 255-272 of `TraceBase::volumeLightSample`: the terms of the contribution,
or `none` for the `return Vec3f(0.0f)` of lines 258, 263 and 272. -/
def volumeLightSampleTerms (tb : TraceBase) (env : SamplingOracles)
    (event : VolumeScatterEvent) (light : PrimitivePtr) (medium : MediumPtr) (bounce : Int)
    (parentRay : Ray) (sampler : SampleGenerator) :
    Option LightTerms × VolumeScatterEvent × SampleGenerator × List Effect :=
  let drawn := env.sampleInboundDirection light tb.threadId event.p sampler
  match drawn.1 with
  | none => (none, event, drawn.2, [Effect.lightDirectionSample light])
  | some sample =>
    let event := { event with wo := sample.d }
    let f := env.phaseEval medium event
    if f.eqScalar 0 then (none, event, drawn.2, [Effect.lightDirectionSample light])
    else
      let ray := { parentRay.scatter sample.p sample.d 0 with primaryRay := false }
      let e := attenuatedEmission tb env light (some medium) sample.dist
        IntersectionTemporary.blank IntersectionInfo.blank bounce ray
      if e.value.eqScalar 0 then
        (none, event, drawn.2, Effect.lightDirectionSample light :: e.trace)
      else
        (some ⟨f, e.value, sample⟩, event, drawn.2,
          Effect.lightDirectionSample light :: e.trace)

/-- `TraceBase::volumeLightSample` (lines 248-280). -/
def volumeLightSample (tb : TraceBase) (env : SamplingOracles) (event : VolumeScatterEvent)
    (light : PrimitivePtr) (medium : MediumPtr) (performMis : Bool) (bounce : Int)
    (parentRay : Ray) (sampler : SampleGenerator) : DirectSample VolumeScatterEvent :=
  let r := volumeLightSampleTerms tb env event light medium bounce parentRay sampler
  match r.1 with
  | none => { value := some (Vec3f.splat 0), event := r.2.1, sampler := r.2.2.1, trace := r.2.2.2 }
  | some terms =>
    -- line 274
    let lightF := (terms.f.mul terms.e).divScalar terms.sample.pdf
    -- lines 276-277
    let lightF :=
      if !env.isDirac light && performMis then
        lightF.map (fun v =>
          v.scale (powerHeuristic terms.sample.pdf (env.phasePdf medium r.2.1)))
      else lightF
    { value := lightF, event := r.2.1, sampler := r.2.2.1, trace := r.2.2.2 }

/-- `TraceBase::volumePhaseSample` (lines 282-308). -/
def volumePhaseSample (tb : TraceBase) (env : SamplingOracles) (light : PrimitivePtr)
    (event : VolumeScatterEvent) (medium : MediumPtr) (bounce : Int) (parentRay : Ray)
    (sampler : SampleGenerator) : DirectSample VolumeScatterEvent :=
  let drawn := env.scatter medium event sampler
  let event := drawn.2.1
  let zero (trace : List Effect) : DirectSample VolumeScatterEvent :=
    { value := some (Vec3f.splat 0), event := event, sampler := drawn.2.2, trace := trace }
  if !drawn.1 then zero [Effect.phaseSample medium]
  else if event.throughput.eqScalar 0 then zero [Effect.phaseSample medium]
  else
    let ray := { parentRay.scatter event.p event.wo 0 with primaryRay := false }
    let e := attenuatedEmission tb env light (some medium) (-1) IntersectionTemporary.blank
      IntersectionInfo.blank bounce ray
    if e.value = Vec3f.splat 0 then zero (Effect.phaseSample medium :: e.trace)
    else
      let phaseF := e.value.mul event.throughput
      let phaseF := phaseF.scale
        (powerHeuristic event.pdf (env.inboundPdf light tb.threadId e.data e.info event.p event.wo))
      { value := some phaseF, event := event, sampler := drawn.2.2,
        trace := Effect.phaseSample medium :: e.trace }

/-- `TraceBase::volumeSampleDirect` (lines 328-342). -/
def volumeSampleDirect (tb : TraceBase) (env : SamplingOracles) (light : PrimitivePtr)
    (event : VolumeScatterEvent) (medium : MediumPtr) (bounce : Int) (parentRay : Ray)
    (sampler : SampleGenerator) : DirectSample VolumeScatterEvent :=
  let mis := true
  let l := volumeLightSample tb env event light medium mis bounce parentRay sampler
  if !env.isDirac light && mis then
    let ph := volumePhaseSample tb env light l.event medium bounce parentRay l.sampler
    { value := l.value.bind (fun r => ph.value.map (fun v => r.add v)), event := ph.event,
      sampler := ph.sampler, trace := l.trace ++ ph.trace }
  else l

/-- What a direct-lighting estimate leaves behind: as for a sampling routine, and
the contents of `_lightPdf` after the light selection. -/
structure DirectEstimate (ε : Type) where
  value : Option Vec3f
  event : ε
  sampler : SampleGenerator
  trace : List Effect
  lightPdf : List ℚ

/-- `TraceBase::volumeEstimateDirect` (lines 398-408).  The index `chooseLight`
returns is within `lights()`. -/
def volumeEstimateDirect (tb : TraceBase) (env : SamplingOracles) (event : VolumeScatterEvent)
    (medium : MediumPtr) (bounce : Int) (parentRay : Ray) (sampler : SampleGenerator) :
    DirectEstimate VolumeScatterEvent :=
  let c := chooseLight tb sampler event.p
  match c.chosen with
  | none =>
    { value := some (Vec3f.splat 0), event := event, sampler := c.sampler, trace := [],
      lightPdf := c.lightPdf }
  | some (i, weight) =>
    let d := volumeSampleDirect tb env (tb.scene.lights.getD i 0) event medium bounce parentRay
      c.sampler
    { value := d.value.map (fun v => v.scale weight), event := d.event, sampler := d.sampler,
      trace := d.trace, lightPdf := c.lightPdf }

/-- `TraceBase::estimateDirect` (lines 410-420).  The index `chooseLight` returns is
within `lights()`. -/
def estimateDirect (tb : TraceBase) (env : SamplingOracles) (event : SurfaceScatterEvent)
    (medium : Option MediumPtr) (bounce : Int) (parentRay : Ray) (sampler : SampleGenerator) :
    DirectEstimate SurfaceScatterEvent :=
  let c := chooseLight tb sampler event.info.p
  match c.chosen with
  | none =>
    { value := some (Vec3f.splat 0), event := event, sampler := c.sampler, trace := [],
      lightPdf := c.lightPdf }
  | some (i, weight) =>
    let d := sampleDirect tb env (tb.scene.lights.getD i 0) event medium bounce parentRay
      c.sampler
    { value := d.value.map (fun v => v.scale weight), event := d.event, sampler := d.sampler,
      trace := d.trace, lightPdf := c.lightPdf }

/-! ## Surface handler (lines 462-514) -/

/-- The reference parameters of `handleSurface`, and the scratch buffer `_lightPdf`. -/
structure SurfaceState where
  event : SurfaceScatterEvent
  sampler : SampleGenerator
  supplementalSampler : SampleGenerator
  medium : Option MediumPtr
  ray : Ray
  throughput : Vec3f
  emission : Vec3f
  wasSpecular : Bool
  state : MediumState
  lightPdf : List ℚ

/-- What `handleSurface` leaves behind: the returned flag, the reference
parameters and the recorded calls. -/
structure SurfaceOutcome where
  ok : Bool
  st : SurfaceState
  trace : List Effect

/-- The emission-accounting step of `handleSurface` (lines 480-490); `none` when a
division by zero was performed in the direct-lighting estimate. -/
def surfaceEmission (tb : TraceBase) (env : SamplingOracles) (data : IntersectionTemporary)
    (info : IntersectionInfo) (bounce : Int) (adjoint enableLightSampling : Bool)
    (st : SurfaceState) : Option (SurfaceState × List Effect) :=
  if !adjoint then
    if enableLightSampling then
      let emission :=
        if (st.wasSpecular || !env.isSamplable info.primitive)
            && decide (bounce ≥ tb.settings.minBounces) then
          st.emission.add ((env.emission info.primitive data info).mul st.throughput)
        else st.emission
      if bounce < tb.settings.maxBounces - 1 then
        let d := estimateDirect tb env st.event st.medium (bounce + 1) st.ray st.sampler
        d.value.map (fun v =>
          ({ st with emission := emission.add (v.mul st.throughput), event := d.event,
                     sampler := d.sampler, lightPdf := d.lightPdf }, d.trace))
      else some ({ st with emission := emission }, [])
    else if bounce ≥ tb.settings.minBounces then
      some ({ st with emission :=
        st.emission.add ((env.emission info.primitive data info).mul st.throughput) }, [])
    else some (st, [])
  else some (st, [])

/-- Lines 507-513 of `handleSurface`: the medium is reselected, the medium state
reset and the ray restarted in the direction `wo`. -/
def surfaceContinue (tb : TraceBase) (env : SamplingOracles) (info : IntersectionInfo)
    (wo : Vec3f) (st : SurfaceState) : SurfaceState :=
  let geometricBackside := decide (wo.dot info.Ng < 0)
  { st with
    medium := tb.scene.selectMedium info.bsdf st.medium geometricBackside
    state := env.stateReset st.state
    ray := st.ray.scatter st.ray.hitpoint wo info.epsilon }

/-- `TraceBase::handleSurface` (lines 462-514); `none` when a division by zero was
performed. -/
def handleSurface (tb : TraceBase) (env : SamplingOracles) (data : IntersectionTemporary)
    (info : IntersectionInfo) (bounce : Int) (adjoint enableLightSampling : Bool)
    (st : SurfaceState) : Option SurfaceOutcome :=
  let transparency := tb.scene.eval info.bsdf st.event.makeForwardEvent false
  let transparencyScalar := transparency.avg
  let draw := st.supplementalSampler.next1D
  let st := { st with supplementalSampler := draw.2 }
  if draw.1 < transparencyScalar then
    let wo := st.ray.dir
    (transparency.divScalar transparencyScalar).map (fun q =>
      { ok := true
        st := surfaceContinue tb env info wo { st with throughput := st.throughput.mul q }
        trace := [] })
  else
    (surfaceEmission tb env data info bounce adjoint enableLightSampling st).map (fun acc =>
      let st := acc.1
      let event := { st.event with requestedLobe := RequestedLobe.AllLobes }
      let drawn := env.bsdfSample info.bsdf event adjoint st.sampler
      let event := drawn.2.1
      let st := { st with event := event, sampler := drawn.2.2 }
      let trace := acc.2 ++ [Effect.bsdfSample info.bsdf]
      if !drawn.1 then { ok := false, st := st, trace := trace }
      else
        let wo := event.frame.toGlobal event.wo
        if !isConsistent tb event wo then { ok := false, st := st, trace := trace }
        else
          let wasSpecular := event.sampledLobe.hasSpecular
          let st := { st with
            throughput := st.throughput.mul event.throughput
            wasSpecular := wasSpecular
            ray := if !wasSpecular then { st.ray with primaryRay := false } else st.ray }
          { ok := true, st := surfaceContinue tb env info wo st, trace := trace })

/-! ## Volume handler (lines 422-460) -/

/-- What a medium method that takes the event and the medium state by reference
leaves behind: the returned flag, the event, the medium state and the two
samplers of the event. -/
structure MediumCall where
  flag : Bool
  event : VolumeScatterEvent
  state : MediumState
  sampler : SampleGenerator
  supplementalSampler : SampleGenerator

/-- The free-flight methods of media, keyed by the medium's pointer. -/
structure MediumOracles where
  sampleDistance :
    MediumPtr → VolumeScatterEvent → MediumState → SampleGenerator → SampleGenerator → MediumCall
  emission : MediumPtr → VolumeScatterEvent → Vec3f
  absorb :
    MediumPtr → VolumeScatterEvent → MediumState → SampleGenerator → SampleGenerator → MediumCall

/-- The calls of medium methods and of the volumetric direct lighting that
`handleVolume` makes, with the flags they return. -/
inductive VolumeCall where
  | sampleDistance (ok : Bool)
  | directLighting
  | absorb (absorbed : Bool)
  | scatter (ok : Bool)
deriving DecidableEq

/-- The reference parameters of `handleVolume` other than `emission`, and the
scratch buffer `_lightPdf`. -/
structure VolumeState where
  sampler : SampleGenerator
  supplementalSampler : SampleGenerator
  medium : MediumPtr
  ray : Ray
  throughput : Vec3f
  wasSpecular : Bool
  hitSurface : Bool
  state : MediumState
  lightPdf : List ℚ

/-- What `handleVolume` leaves behind: the returned flag, the reference
parameters, the accumulated emission (`none` when a division by zero was
performed in the direct-lighting estimate: the value is then not a
rational, the control flow goes on), the calls made and the calls recorded
by the direct lighting. -/
structure VolumeOutcome where
  ok : Bool
  st : VolumeState
  emission : Option Vec3f
  calls : List VolumeCall
  trace : List Effect

/-- The event `handleVolume` constructs (line 427). -/
def volumeEvent (st : VolumeState) : VolumeScatterEvent :=
  { p := st.ray.pos, wi := st.ray.dir, maxT := st.ray.farT, currentThroughput := st.throughput }

/-- The distance sampling of `handleVolume` (line 428). -/
def volumeDistance (med : MediumOracles) (st : VolumeState) : MediumCall :=
  med.sampleDistance st.medium (volumeEvent st) st.state st.sampler st.supplementalSampler

/-- The event at the scatter point inside the medium: `event.throughput` reset
(line 431) and `event.p` advanced by `event.t*event.wi` (line 440). -/
def volumeInsideEvent (event : VolumeScatterEvent) : VolumeScatterEvent :=
  { event with throughput := Vec3f.splat 1, p := event.p.add (event.wi.scale event.t) }

/-- The test of line 442: volumetric direct lighting is evaluated. -/
def volumeLit (tb : TraceBase) (bounce : Int) (adjoint enableLightSampling : Bool) : Bool :=
  !adjoint && enableLightSampling && decide (bounce < int32Wrap (tb.settings.maxBounces - 1))

/-- The call of `volumeEstimateDirect` at line 444, with the arguments it receives. -/
def volumeDirect (tb : TraceBase) (env : SamplingOracles) (med : MediumOracles) (bounce : Int)
    (st : VolumeState) : DirectEstimate VolumeScatterEvent :=
  volumeEstimateDirect tb env (volumeInsideEvent (volumeDistance med st).event) st.medium
    (int32Wrap (bounce + 1)) st.ray (volumeDistance med st).sampler

/-- The call of `medium->absorb` at line 447, with the arguments it receives: the
event and the sampler are those the direct lighting leaves behind when it was
evaluated. -/
def volumeAbsorb (tb : TraceBase) (env : SamplingOracles) (med : MediumOracles) (bounce : Int)
    (adjoint enableLightSampling : Bool) (st : VolumeState) : MediumCall :=
  if volumeLit tb bounce adjoint enableLightSampling then
    med.absorb st.medium (volumeDirect tb env med bounce st).event (volumeDistance med st).state
      (volumeDirect tb env med bounce st).sampler (volumeDistance med st).supplementalSampler
  else
    med.absorb st.medium (volumeInsideEvent (volumeDistance med st).event)
      (volumeDistance med st).state (volumeDistance med st).sampler
      (volumeDistance med st).supplementalSampler

/-- The call of `medium->scatter` at line 449, with the arguments it receives. -/
def volumeScatter (tb : TraceBase) (env : SamplingOracles) (med : MediumOracles) (bounce : Int)
    (adjoint enableLightSampling : Bool) (st : VolumeState) :
    Bool × VolumeScatterEvent × SampleGenerator :=
  env.scatter st.medium (volumeAbsorb tb env med bounce adjoint enableLightSampling st).event
    (volumeAbsorb tb env med bounce adjoint enableLightSampling st).sampler

/-- `TraceBase::handleVolume` (lines 422-460). -/
def handleVolume (tb : TraceBase) (env : SamplingOracles) (med : MediumOracles) (bounce : Int)
    (adjoint enableLightSampling : Bool) (emission : Vec3f) (st : VolumeState) :
    VolumeOutcome :=
  let sd := volumeDistance med st
  if !sd.flag then
    { ok := false
      st := { st with state := sd.state, sampler := sd.sampler,
                      supplementalSampler := sd.supplementalSampler }
      emission := some emission
      calls := [VolumeCall.sampleDistance false]
      trace := [] }
  else
    -- lines 430-431
    let throughput := st.throughput.mul sd.event.throughput
    -- lines 433-434
    let emission :=
      if !adjoint && decide (bounce ≥ tb.settings.minBounces) then
        emission.add (throughput.mul
          (med.emission st.medium { sd.event with throughput := Vec3f.splat 1 }))
      else emission
    -- lines 436-437
    let wasSpecular := if !enableLightSampling then !st.hitSurface else st.wasSpecular
    if sd.event.t < sd.event.maxT then
      -- lines 442-445
      let lit := volumeLit tb bounce adjoint enableLightSampling
      let d := volumeDirect tb env med bounce st
      let emission : Option Vec3f :=
        if lit then d.value.map (fun v => emission.add (throughput.mul v)) else some emission
      let wasSpecular := if lit then false else wasSpecular
      let lightPdf := if lit then d.lightPdf else st.lightPdf
      let litCalls := if lit then [VolumeCall.directLighting] else []
      let litTrace := if lit then d.trace else []
      -- line 447
      let a := volumeAbsorb tb env med bounce adjoint enableLightSampling st
      if a.flag then
        { ok := false
          st := { st with state := a.state, sampler := a.sampler,
                          supplementalSampler := a.supplementalSampler,
                          throughput := throughput, wasSpecular := wasSpecular,
                          lightPdf := lightPdf }
          emission := emission
          calls := VolumeCall.sampleDistance true :: litCalls ++ [VolumeCall.absorb true]
          trace := litTrace }
      else
        -- line 449
        let sc := volumeScatter tb env med bounce adjoint enableLightSampling st
        if !sc.1 then
          { ok := false
            st := { st with state := a.state, sampler := sc.2.2,
                            supplementalSampler := a.supplementalSampler,
                            throughput := throughput, wasSpecular := wasSpecular,
                            lightPdf := lightPdf }
            emission := emission
            calls := VolumeCall.sampleDistance true :: litCalls
              ++ [VolumeCall.absorb false, VolumeCall.scatter false]
            trace := litTrace }
        else
          -- lines 451-454
          { ok := true
            st := { st with
              state := a.state
              sampler := sc.2.2
              supplementalSampler := a.supplementalSampler
              ray := { st.ray.scatter sc.2.1.p sc.2.1.wo 0 with primaryRay := false }
              throughput := throughput.mul sc.2.1.throughput
              wasSpecular := wasSpecular
              hitSurface := false
              lightPdf := lightPdf }
            emission := emission
            calls := VolumeCall.sampleDistance true :: litCalls
              ++ [VolumeCall.absorb false, VolumeCall.scatter true]
            trace := litTrace }
    else
      -- lines 455-457
      { ok := true
        st := { st with state := sd.state, sampler := sd.sampler,
                        supplementalSampler := sd.supplementalSampler,
                        throughput := throughput, wasSpecular := wasSpecular,
                        hitSurface := true }
        emission := some emission
        calls := [VolumeCall.sampleDistance true]
        trace := [] }

/-! ## Construction (lines 5-22) -/

/-- What the constructor of `TraceBase` leaves behind: the members, the weights
given to the light sampler and the calls of `makeSamplable` (light and thread
id), in order. -/
structure Construction where
  tracer : TraceBase
  lightSamplerWeights : List ℚ
  makeSamplableCalls : List (PrimitivePtr × Nat)

/-- `TraceBase::TraceBase` (lines 5-22). -/
def TraceBase.construct (scene : TraceableScene) (settings : TraceSettings) (threadId : Nat) :
    Construction :=
  -- line 11
  let lightPdf := scene.lights.map (fun _ => (0 : ℚ))
  -- lines 13-17
  let firstLoop := scene.lights.map (fun l => (l, threadId))
  let lightWeights := scene.lights.map (fun _ => (1 : ℚ))
  -- lines 20-21
  let secondLoop := scene.lights.map (fun l => (l, threadId))
  { tracer := ⟨scene, settings, threadId, lightPdf⟩
    lightSamplerWeights := lightWeights
    makeSamplableCalls := firstLoop ++ secondLoop }

/-! ## Scene export (`SceneXmlWriter`, `json2xml/JsonXmlConverter.hpp`) -/

/-- The members of `SceneXmlWriter` the conversions change: the pieces written to
`_stream` in order, `_indent`, the stack `_blocks` (top first), and the
diagnostics printed by `DBG`. -/
structure SceneXmlWriter where
  stream : List String
  indent : List Char
  blocks : List String
  diagnostics : List String

namespace SceneXmlWriter

/-- The tab character appended to `_indent`. -/
def tab : Char := Char.ofNat 9

/-- The line end written by `std::endl`. -/
def endl : String := String.singleton (Char.ofNat 10)

/-- `begin` (lines 55-60). -/
def begin (w : SceneXmlWriter) (block : String) : SceneXmlWriter :=
  { w with
    stream := w.stream ++ [String.mk w.indent, "<", block, " "]
    indent := w.indent ++ [tab]
    blocks := block :: w.blocks }

/-- `beginPost` (lines 62-65). -/
def beginPost (w : SceneXmlWriter) : SceneXmlWriter :=
  { w with stream := w.stream ++ [">", endl] }

/-- `endInline` (lines 67-72); `none` when the last character of an empty `_indent`
is erased or an empty stack is popped (undefined behaviour). -/
def endInline (w : SceneXmlWriter) : Option SceneXmlWriter :=
  if w.indent = [] ∨ w.blocks = [] then none
  else some { w with
    stream := w.stream ++ ["/>", endl]
    indent := w.indent.dropLast
    blocks := w.blocks.tail }

/-- `end` (lines 74-79); `none` when the last character of an empty `_indent` is
erased or the top of an empty stack is read (undefined behaviour). -/
def endBlock (w : SceneXmlWriter) : Option SceneXmlWriter :=
  match w.blocks with
  | [] => none
  | top :: rest =>
    if w.indent = [] then none
    else some { w with
      stream := w.stream ++ [String.mk w.indent.dropLast, "</", top, ">", endl]
      indent := w.indent.dropLast
      blocks := rest }

/-- `assign` (lines 81-85), the value already formatted. -/
def assign (w : SceneXmlWriter) (name value : String) : SceneXmlWriter :=
  { w with stream := w.stream ++ [name, "=\"", value, "\" "] }

/-- `DBG`: a diagnostic is printed, the writer is otherwise unchanged. -/
def dbg (w : SceneXmlWriter) (message : String) : SceneXmlWriter :=
  { w with diagnostics := w.diagnostics ++ [message] }

/-- `convert(blockname, name, v)` for a scalar or string value (lines 87-94). -/
def convertValue (w : SceneXmlWriter) (blockname name value : String) : Option SceneXmlWriter :=
  (((w.begin blockname).assign "name" name).assign "value" value).endInline

/-- `convert(blockname, name, v)` for a vector (lines 96-106). -/
def convertVec (fmt : ℚ → String) (w : SceneXmlWriter) (blockname name : String) (v : Vec3f) :
    Option SceneXmlWriter :=
  let w := (w.begin blockname).assign "name" name
  let w := { w with stream := w.stream ++
    ["value=\"", fmt v.x, ", ", fmt v.y, ", ", fmt v.z, "", "\""] }
  w.endInline

/-- `convertSpectrum(name, Vec3f)` (lines 173-176). -/
def convertSpectrum (fmt : ℚ → String) (w : SceneXmlWriter) (name : String) (v : Vec3f) :
    Option SceneXmlWriter :=
  convertVec fmt w "rgb" name v

/-- `convert(name, float)` (lines 133-136). -/
def convertFloat (fmt : ℚ → String) (w : SceneXmlWriter) (name : String) (v : ℚ) :
    Option SceneXmlWriter :=
  convertValue w "float" name (fmt v)

end SceneXmlWriter

/-- The dynamic type of a `Texture`, as the writer's `dynamic_cast` chain sees it. -/
inductive TextureKind where
  | Constant (average : Vec3f)
  | Bitmap (path : String)
  | Checker (offColor onColor : Vec3f) (resU resV : ℚ)
  | Other

/-- The phase function types (`PhaseFunction::Type`). -/
inductive PhaseFunction where
  | Isotropic
  | HenyeyGreenstein
  | Rayleigh

/-- The dynamic type of a `Medium`, as the writer's `dynamic_cast` sees it. -/
inductive MediumKind where
  | Homogeneous (sigmaS sigmaA : Vec3f)
  | Other

/-- What the writer reads from a `Medium`. -/
structure ExportedMedium where
  kind : MediumKind
  unnamed : Bool
  name : String
  phaseFunctionType : PhaseFunction
  phaseG : ℚ

namespace SceneXmlWriter

/-- `convert(name, Texture *)` with the conversions it dispatches to (lines 178-221). -/
def convertTexture (fmt : ℚ → String) (w : SceneXmlWriter) (name : String) (a : TextureKind) :
    Option SceneXmlWriter :=
  match a with
  | TextureKind.Constant average => convertSpectrum fmt w name average
  | TextureKind.Bitmap path => do
    let w := w.begin "texture"
    let w := if name ≠ "" then w.assign "name" name else w
    let w := (w.assign "type" "bitmap").beginPost
    let w ← convertValue w "string" "filename" path
    let w ← convertValue w "string" "filterType" "trilinear"
    w.endBlock
  | TextureKind.Checker offColor onColor resU resV => do
    let w := w.begin "texture"
    let w := if name ≠ "" then w.assign "name" name else w
    let w := (w.assign "type" "checkerboard").beginPost
    let w ← convertSpectrum fmt w "color1" offColor
    let w ← convertSpectrum fmt w "color0" onColor
    let w ← convertFloat fmt w "uoffset" 0
    let w ← convertFloat fmt w "voffset" 0
    let w ← convertFloat fmt w "uscale" (resU * (1 / 2))
    let w ← convertFloat fmt w "vscale" (resV * (1 / 2))
    w.endBlock
  | TextureKind.Other => some (w.dbg "Unknown texture type!")

/-- `convert(HomogeneousMedium *)` (lines 226-235): the block "medium" stays open. -/
def convertHomogeneousMedium (fmt : ℚ → String) (w : SceneXmlWriter) (med : ExportedMedium)
    (sigmaS sigmaA : Vec3f) : Option SceneXmlWriter := do
  let w := (w.begin "medium").assign "type" "homogeneous"
  let w := if !med.unnamed then w.assign "name" med.name else w
  let w := w.beginPost
  let w ← convertSpectrum fmt w "sigmaS" sigmaS
  convertSpectrum fmt w "sigmaA" sigmaA

/-- `convert(Medium *)` (lines 237-261). -/
def convertMedium (fmt : ℚ → String) (w : SceneXmlWriter) (med : ExportedMedium) :
    Option SceneXmlWriter := do
  -- lines 239-242
  let w ← match med.kind with
    | MediumKind.Homogeneous sigmaS sigmaA => convertHomogeneousMedium fmt w med sigmaS sigmaA
    | MediumKind.Other => some (w.dbg "Unknown medium type!")
  -- lines 244-258
  let w ← match med.phaseFunctionType with
    | PhaseFunction.Isotropic => some w
    | PhaseFunction.HenyeyGreenstein => do
      let w := ((w.begin "phase").assign "type" "hg").beginPost
      let w ← convertFloat fmt w "g" med.phaseG
      w.endBlock
    | PhaseFunction.Rayleigh => ((w.begin "phase").assign "type" "rayleigh").endInline
  -- line 260
  w.endBlock

end SceneXmlWriter

/-! ## Concrete scenes -/

/-- A scene in which no ray hits anything, with the given lights and approximate radiances. -/
def emptyScene (lights : List PrimitivePtr) (radiance : PrimitivePtr → ℚ) : TraceableScene where
  lights := lights
  intersect := fun ray => (ray, none)
  approximateRadiance := fun l _ _ => radiance l
  setupTangentFrame := fun _ _ _ => ⟨⟨0, 0, 1⟩, ⟨1, 0, 0⟩, ⟨0, 1, 0⟩⟩
  hitBackside := fun _ _ => false
  lobes := fun _ => ⟨false, false, false, false⟩
  eval := fun _ _ _ => Vec3f.splat 0
  selectMedium := fun _ m _ => m
  transmittance := fun _ _ => Vec3f.splat 1

/-- A scene in which every ray hits, at distance 1, a surface of primitive 1; the
surface hit by a ray starting in the plane `z = 0` has BSDF 0, every other one
BSDF 1.  `response` gives the pass-through response of each BSDF; medium 0 has
transmittance 1/2. -/
def wallScene (response : BsdfPtr → Vec3f) : TraceableScene where
  lights := []
  intersect := fun ray =>
    ({ ray with farT := 1 },
      some (⟨0⟩, ⟨⟨0, 0, 1⟩, ⟨0, 0, 1⟩, ray.pos.add ray.dir, ray.dir, 1 / 1000, 1,
        if ray.pos.z = 0 then 0 else 1⟩))
  approximateRadiance := fun _ _ _ => 0
  setupTangentFrame := fun _ _ _ => ⟨⟨0, 0, 1⟩, ⟨1, 0, 0⟩, ⟨0, 1, 0⟩⟩
  hitBackside := fun _ _ => false
  lobes := fun _ => ⟨true, false, false, false⟩
  eval := fun b _ _ => response b
  selectMedium := fun _ m _ => m
  transmittance := fun _ _ => Vec3f.splat (1 / 2)

/-- A scene with one transparent wall: a ray starting in the plane `z = 0` hits, at
distance 1, a surface of primitive 1 with pass-through response (1,1,1);
every other ray hits nothing. -/
def singleWallScene : TraceableScene where
  lights := []
  intersect := fun ray =>
    if ray.pos.z = 0 then
      ({ ray with farT := 1 },
        some (⟨0⟩, ⟨⟨0, 0, 1⟩, ⟨0, 0, 1⟩, ray.pos.add ray.dir, ray.dir, 1 / 1000, 1, 0⟩))
    else (ray, none)
  approximateRadiance := fun _ _ _ => 0
  setupTangentFrame := fun _ _ _ => ⟨⟨0, 0, 1⟩, ⟨1, 0, 0⟩, ⟨0, 1, 0⟩⟩
  hitBackside := fun _ _ => false
  lobes := fun _ => ⟨true, false, false, false⟩
  eval := fun _ _ _ => Vec3f.splat 1
  selectMedium := fun _ m _ => m
  transmittance := fun _ _ => Vec3f.splat 1

/-- Tracer over the scene with one transparent wall, with the bounce budget 0 to 8. -/
def singleWallTracer : TraceBase := ⟨singleWallScene, ⟨false, false, 0, 8⟩, 0, []⟩

/-- A ray from the origin along the z axis. -/
def zRay : Ray := ⟨⟨0, 0, 0⟩, ⟨0, 0, 1⟩, 0, 10, false⟩

/-- Pass-through responses of a transparent first wall followed by opaque ones. -/
def glassThenBlocker (b : BsdfPtr) : Vec3f := if b = 0 then Vec3f.splat 1 else Vec3f.splat 0

/-- Tracer over the wall scene with the given responses and bounce budget. -/
def wallTracer (response : BsdfPtr → Vec3f) (minBounces maxBounces : Int) : TraceBase :=
  ⟨wallScene response, ⟨false, false, minBounces, maxBounces⟩, 0, []⟩

/-- Settings with the given bounce budget and both optional checks switched off. -/
def plainSettings (minBounces maxBounces : Int) : TraceSettings :=
  ⟨false, false, minBounces, maxBounces⟩

/-- Tracer over an empty scene with the given lights and approximate radiances. -/
def lightsOnly (lights : List PrimitivePtr) (radiance : PrimitivePtr → ℚ) : TraceBase :=
  ⟨emptyScene lights radiance, plainSettings 0 8, 0, lights.map (fun _ => 0)⟩

/-- Sampler whose every draw is `u`. -/
def constSampler (u : ℚ) : SampleGenerator := ⟨fun _ => u, 0⟩

/-- A scene in which no ray hits anything, with the single light 0, whose BSDFs
all have the given lobes and the given response in every direction. -/
def litScene (lobes : BsdfLobes) (response : Vec3f) : TraceableScene where
  lights := [0]
  intersect := fun ray => (ray, none)
  approximateRadiance := fun _ _ _ => 1
  setupTangentFrame := fun _ _ _ => ⟨⟨0, 0, 1⟩, ⟨1, 0, 0⟩, ⟨0, 1, 0⟩⟩
  hitBackside := fun _ _ => false
  lobes := fun _ => lobes
  eval := fun _ _ _ => response
  selectMedium := fun _ m _ => m
  transmittance := fun _ _ => Vec3f.splat 1

/-- Lobes of a diffuse reflector. -/
def diffuseLobes : BsdfLobes := ⟨false, false, false, false⟩

/-- Lobes of a mirror. -/
def mirrorLobes : BsdfLobes := ⟨false, true, false, true⟩

/-- Tracer over the lit scene, with both optional checks switched off and the
bounce budget 0 to 8. -/
def litTracer (lobes : BsdfLobes) (response : Vec3f) : TraceBase :=
  ⟨litScene lobes response, plainSettings 0 8, 0, [0]⟩

/-- Tracer over the empty scene with consistency checks and two-sided shading enabled. -/
def checkedTracer : TraceBase :=
  ⟨emptyScene [] (fun _ => 0), ⟨true, true, 0, 8⟩, 0, []⟩

/-- Hit record of a surface in the plane `z = 1` with geometric normal along z. -/
def flatHit : IntersectionInfo :=
  ⟨⟨0, 0, 1⟩, ⟨0, 0, 1⟩, ⟨0, 0, 1⟩, ⟨0, 0, 1⟩, 1 / 1000, 1, 0⟩

/-- Collaborators around one light of emission (4,4,4): its direction sampler
returns the direction +z at distance 5 with the given pdf, the light is hit
at distance 2 by every ray, and BSDF and phase sampling return the direction
+z with throughput 1 and pdf 1. -/
def lampOracles (isDirac : Bool) (pdf : ℚ) : SamplingOracles where
  isDirac := fun _ => isDirac
  isSamplable := fun _ => true
  sampleInboundDirection := fun _ _ p s => (some ⟨p, ⟨0, 0, 1⟩, 5, pdf⟩, s.next1D.2)
  inboundPdf := fun _ _ _ _ _ _ => 1
  lightIntersect := fun _ ray => some ({ ray with farT := 2 }, ⟨1⟩)
  intersectionInfo := fun _ _ info => info
  emission := fun _ _ _ => Vec3f.splat 4
  bsdfSample := fun _ e _ s =>
    (true, { e with wo := ⟨0, 0, 1⟩, throughput := Vec3f.splat 1, pdf := 1 }, s.next1D.2)
  bsdfPdf := fun _ _ => 1
  phaseEval := fun _ _ => Vec3f.splat 1
  phasePdf := fun _ _ => 1
  scatter := fun _ e s =>
    (true, { e with wo := ⟨0, 0, 1⟩, throughput := Vec3f.splat 1, pdf := 1 }, s.next1D.2)
  stateReset := fun _ => 0

/-- The scatter event of a hit of the lit scene by the ray along z. -/
def litEvent (lobes : BsdfLobes) (response : Vec3f) : SurfaceScatterEvent :=
  makeLocalScatterEvent (litTracer lobes response) ⟨0⟩ flatHit zRay

/-- A volume scatter event at the origin for a path travelling along z. -/
def originVolumeEvent : VolumeScatterEvent := { p := ⟨0, 0, 0⟩, wi := ⟨0, 0, 1⟩, maxT := 10 }

/-- The reference parameters of `handleSurface` at a hit of the lit scene by the
ray along z: throughput 1/2, emission 1, after a specular bounce, with the
supplemental draw 1/2. -/
def litSurfaceState (lobes : BsdfLobes) (response : Vec3f) : SurfaceState where
  event := litEvent lobes response
  sampler := constSampler (1 / 4)
  supplementalSampler := constSampler (1 / 2)
  medium := none
  ray := { zRay with farT := 1, primaryRay := true }
  throughput := Vec3f.splat (1 / 2)
  emission := Vec3f.splat 1
  wasSpecular := true
  state := 7
  lightPdf := [0]

/-- A writer inside the block "shape" of the caller, one level deep. -/
def shapeWriter : SceneXmlWriter := ⟨[], [SceneXmlWriter.tab], ["shape"], []⟩

/-- A medium of a kind the writer does not recognise, with isotropic phase function. -/
def foreignMedium : ExportedMedium := ⟨MediumKind.Other, true, "", PhaseFunction.Isotropic, 0⟩

/-- A medium whose distance sampling succeeds with the distance `t`, without emission,
and which absorbs the path or not as `absorbed` says. -/
def fogOracles (t : ℚ) (absorbed : Bool) : MediumOracles where
  sampleDistance := fun _ e state s ss =>
    ⟨true, { e with t := t, throughput := Vec3f.splat 1, pdf := 1 }, state, s.next1D.2, ss⟩
  emission := fun _ _ => Vec3f.splat 0
  absorb := fun _ e state s ss => ⟨absorbed, e, state, s, ss.next1D.2⟩

/-- The reference parameters of `handleVolume` for the ray along z, of far bound 10,
inside medium 0. -/
def fogState : VolumeState where
  sampler := constSampler (1 / 4)
  supplementalSampler := constSampler (1 / 2)
  medium := 0
  ray := zRay
  throughput := Vec3f.splat (1 / 2)
  wasSpecular := true
  hitSurface := true
  state := 7
  lightPdf := [0]

/-! ## Lemmas on the light weights -/

/-- Sum of the non-negative entries of a list. -/
def nonnegSum (rs : List ℚ) : ℚ := (rs.filter (fun r => decide (0 ≤ r))).sum

/-- Number of the non-negative entries of a list. -/
def nonnegCount (rs : List ℚ) : Nat := (rs.filter (fun r => decide (0 ≤ r))).length

theorem gatherRadiance_fst (approx : PrimitivePtr → ℚ) (ls : List PrimitivePtr) (t : ℚ) (n : Nat) :
    (gatherRadiance approx ls t n).1 = ls.map approx := by
  induction ls generalizing t n with
  | nil => rfl
  | cons l ls ih =>
    simp only [gatherRadiance]
    split <;> simp [ih]

theorem gatherRadiance_total (approx : PrimitivePtr → ℚ) (ls : List PrimitivePtr) (t : ℚ) (n : Nat) :
    (gatherRadiance approx ls t n).2.1 = t + nonnegSum (ls.map approx) := by
  induction ls generalizing t n with
  | nil => simp [gatherRadiance, nonnegSum]
  | cons l ls ih =>
    simp only [gatherRadiance]
    split
    · rename_i h
      simp [ih, nonnegSum, List.filter_cons, h] at *
      ring
    · rename_i h
      simp [ih, nonnegSum, List.filter_cons, h] at *

theorem gatherRadiance_count (approx : PrimitivePtr → ℚ) (ls : List PrimitivePtr) (t : ℚ) (n : Nat) :
    (gatherRadiance approx ls t n).2.2 = n + nonnegCount (ls.map approx) := by
  induction ls generalizing t n with
  | nil => simp [gatherRadiance, nonnegCount]
  | cons l ls ih =>
    simp only [gatherRadiance]
    split
    · rename_i h
      simp [ih, nonnegCount, List.filter_cons, h] at *
      omega
    · rename_i h
      simp [ih, nonnegCount, List.filter_cons, h] at *

theorem nonnegSum_nonneg (rs : List ℚ) : 0 ≤ nonnegSum rs := by
  unfold nonnegSum
  apply List.sum_nonneg
  intro x hx
  simpa using (List.mem_filter.mp hx).2

theorem nonnegCount_le (rs : List ℚ) : nonnegCount rs ≤ rs.length := by
  unfold nonnegCount
  exact List.length_filter_le _ _

theorem nonneg_of_nonnegCount_eq (rs : List ℚ) (h : nonnegCount rs = rs.length) :
    ∀ r ∈ rs, 0 ≤ r := by
  induction rs with
  | nil => simp
  | cons r rs ih =>
    have hle := nonnegCount_le rs
    by_cases hr : 0 ≤ r
    · simp [nonnegCount, List.filter_cons, hr] at h
      intro x hx
      rcases List.mem_cons.mp hx with rfl | hx
      · exact hr
      · exact ih (by simpa [nonnegCount] using h) x hx
    · simp [nonnegCount, List.filter_cons, hr] at h
      simp [nonnegCount] at hle
      omega

theorem nonnegSum_eq_sum (rs : List ℚ) (h : ∀ r ∈ rs, 0 ≤ r) : nonnegSum rs = rs.sum := by
  unfold nonnegSum
  rw [List.filter_eq_self.mpr]
  intro a ha
  simpa using h a ha

theorem fillUnknown_length (k : Nat) (ws : List ℚ) (t : ℚ) :
    (fillUnknown k ws t).1.length = ws.length := by
  induction ws generalizing t with
  | nil => rfl
  | cons w ws ih =>
    simp only [fillUnknown]
    split <;> simp [ih]

theorem fillUnknown_nonneg (k : Nat) (ws : List ℚ) (t : ℚ) (ht : 0 ≤ t) :
    ∀ w ∈ (fillUnknown k ws t).1, 0 ≤ w := by
  induction ws generalizing t with
  | nil => simp [fillUnknown]
  | cons w ws ih =>
    have hu : 0 ≤ (if t = 0 then 1 else t) / (k : ℚ) := by
      apply div_nonneg
      · split <;> linarith
      · exact Nat.cast_nonneg k
    simp only [fillUnknown]
    split
    · intro x hx
      rcases List.mem_cons.mp hx with rfl | hx
      · exact hu
      · exact ih _ (by linarith) x hx
    · rename_i h
      intro x hx
      rcases List.mem_cons.mp hx with rfl | hx
      · exact not_lt.mp h
      · exact ih _ ht x hx

theorem fillUnknown_total (k : Nat) (ws : List ℚ) (t : ℚ) :
    (fillUnknown k ws t).2 + nonnegSum ws = t + (fillUnknown k ws t).1.sum := by
  induction ws generalizing t with
  | nil => simp [fillUnknown, nonnegSum]
  | cons w ws ih =>
    simp only [fillUnknown]
    split
    · rename_i h
      have h' : ¬ 0 ≤ w := not_le.mpr h
      have := ih (t + (if t = 0 then 1 else t) / (k : ℚ))
      simp [nonnegSum, List.filter_cons, h'] at *
      linarith
    · rename_i h
      have h' : 0 ≤ w := not_lt.mp h
      have := ih t
      simp [nonnegSum, List.filter_cons, h'] at *
      linarith

theorem lightWeights_length (approx : PrimitivePtr → ℚ) (ls : List PrimitivePtr) :
    (lightWeights approx ls).1.length = ls.length := by
  unfold lightWeights
  simp only [gatherRadiance_fst]
  split
  · simp
  · split
    · simp [fillUnknown_length]
    · simp

theorem lightWeights_nonneg (approx : PrimitivePtr → ℚ) (ls : List PrimitivePtr) :
    ∀ w ∈ (lightWeights approx ls).1, 0 ≤ w := by
  unfold lightWeights
  simp only [gatherRadiance_fst, gatherRadiance_total, gatherRadiance_count, zero_add]
  split
  · intro w hw
    simp at hw
    rw [← hw.2]
    exact zero_le_one
  · split
    · exact fillUnknown_nonneg _ _ _ (nonnegSum_nonneg _)
    · rename_i h
      have hle := nonnegCount_le (ls.map approx)
      simp only [not_lt] at h
      exact nonneg_of_nonnegCount_eq (ls.map approx) (by omega)

theorem lightWeights_total (approx : PrimitivePtr → ℚ) (ls : List PrimitivePtr) :
    (lightWeights approx ls).2 = (lightWeights approx ls).1.sum := by
  unfold lightWeights
  simp only [gatherRadiance_fst, gatherRadiance_total, gatherRadiance_count, zero_add]
  split
  · simp [Function.comp_def, List.map_const', List.sum_replicate]
  · split
    · have := fillUnknown_total (nonnegCount (ls.map approx)) (ls.map approx)
        (nonnegSum (ls.map approx))
      linarith
    · rename_i h
      have hle := nonnegCount_le (ls.map approx)
      simp only [not_lt] at h
      exact nonnegSum_eq_sum _ (nonneg_of_nonnegCount_eq _ (by omega))

theorem take_sum_succ (ws : List ℚ) (j : Nat) (w : ℚ) (h : ws[j]? = some w) :
    (ws.take (j + 1)).sum = (ws.take j).sum + w := by
  induction ws generalizing j with
  | nil => simp at h
  | cons a ws ih =>
    cases j with
    | zero =>
      simp at h
      simp [h]
    | succ j =>
      simp at h
      simp [List.take_succ_cons, ih j h]
      ring

theorem take_sum_mono (ws : List ℚ) (hnn : ∀ w ∈ ws, 0 ≤ w) (a b : Nat) (h : a ≤ b) :
    (ws.take a).sum ≤ (ws.take b).sum := by
  induction ws generalizing a b with
  | nil => simp
  | cons x ws ih =>
    have hx : 0 ≤ x := hnn x (List.mem_cons_self _ _)
    have hws : ∀ w ∈ ws, 0 ≤ w := fun w hw => hnn w (List.mem_cons_of_mem _ hw)
    cases a with
    | zero =>
      simp only [List.take_zero, List.sum_nil]
      apply List.sum_nonneg
      intro y hy
      exact hnn y (List.mem_of_mem_take hy)
    | succ a =>
      cases b with
      | zero => omega
      | succ b =>
        simp only [List.take_succ_cons, List.sum_cons]
        have := ih hws a b (by omega)
        linarith

/-- The scan returns the first light whose cumulative weight exceeds the draw. -/
theorem scanLights_spec (total : ℚ) (ws : List ℚ) (i0 : Nat) (t : ℚ)
    (hnn : ∀ w ∈ ws, 0 ≤ w) (ht0 : 0 ≤ t) (ht1 : t < ws.sum) :
    ∃ j w, ws[j]? = some w ∧ 0 < w ∧ scanLights total ws i0 t = some (i0 + j, total / w) ∧
      (ws.take j).sum ≤ t ∧ t < (ws.take (j + 1)).sum := by
  induction ws generalizing i0 t with
  | nil => simp at ht1; linarith
  | cons x ws ih =>
    have hx : 0 ≤ x := hnn x (List.mem_cons_self _ _)
    have hws : ∀ w ∈ ws, 0 ≤ w := fun w hw => hnn w (List.mem_cons_of_mem _ hw)
    by_cases hlt : t < x
    · refine ⟨0, x, by simp, by linarith, ?_, by simpa using ht0, by simpa using hlt⟩
      simp [scanLights, hlt]
    · have hne : ws.isEmpty = false := by
        cases ws with
        | nil => simp at ht1; exact absurd ht1 hlt
        | cons _ _ => rfl
      simp only [List.sum_cons] at ht1
      obtain ⟨j, w, hj, hw, hs, hlo, hhi⟩ := ih (i0 + 1) (t - x) hws (by linarith) (by linarith)
      refine ⟨j + 1, w, by simpa using hj, hw, ?_, ?_, ?_⟩
      · simp only [scanLights, hlt, hne, false_or, Bool.false_eq_true, if_false, hs]
        congr 2
        omega
      · simp only [List.take_succ_cons, List.sum_cons]
        linarith
      · simp only [List.take_succ_cons, List.sum_cons]
        linarith

/-- With at least two lights `chooseLight` goes through the weighted selection. -/
theorem chooseLight_of_two_le (tb : TraceBase) (sampler : SampleGenerator) (p : Vec3f)
    (h2 : 2 ≤ tb.scene.lights.length) :
    chooseLight tb sampler p =
      (let weights := lightWeights (fun l => tb.scene.approximateRadiance l tb.threadId p)
          tb.scene.lights
       if weights.2 = 0 then
        { chosen := none, lightPdf := weights.1, sampler := sampler,
          radianceQueries := tb.scene.lights.length }
       else
        { chosen := scanLights weights.2 weights.1 0 (sampler.next1D.1 * weights.2),
          lightPdf := weights.1, sampler := sampler.next1D.2,
          radianceQueries := tb.scene.lights.length }) := by
  have hne : tb.scene.lights.isEmpty = false := by
    cases hl : tb.scene.lights with
    | nil => simp [hl] at h2
    | cons _ _ => rfl
  have h1 : ¬ tb.scene.lights.length = 1 := by omega
  simp only [chooseLight, hne, h1, if_false, Bool.false_eq_true]

theorem chooseLight_lightPdf (tb : TraceBase) (sampler : SampleGenerator) (p : Vec3f)
    (h2 : 2 ≤ tb.scene.lights.length) :
    (chooseLight tb sampler p).lightPdf =
      (lightWeights (fun l => tb.scene.approximateRadiance l tb.threadId p) tb.scene.lights).1 := by
  rw [chooseLight_of_two_le tb sampler p h2]
  simp only []
  split <;> rfl

/-- What the weighted selection returns for a draw in `[0,1)` when the total is positive. -/
theorem chooseLight_scan (tb : TraceBase) (sampler : SampleGenerator) (p : Vec3f)
    (h2 : 2 ≤ tb.scene.lights.length)
    (htotal : (chooseLight tb sampler p).lightPdf.sum ≠ 0)
    (hu0 : 0 ≤ sampler.next1D.1) (hu1 : sampler.next1D.1 < 1) :
    ∃ j w, (chooseLight tb sampler p).lightPdf[j]? = some w ∧ 0 < w ∧
      (chooseLight tb sampler p).chosen
        = some (j, (chooseLight tb sampler p).lightPdf.sum / w) ∧
      ((chooseLight tb sampler p).lightPdf.take j).sum
        ≤ sampler.next1D.1 * (chooseLight tb sampler p).lightPdf.sum ∧
      sampler.next1D.1 * (chooseLight tb sampler p).lightPdf.sum
        < ((chooseLight tb sampler p).lightPdf.take (j + 1)).sum := by
  rw [chooseLight_lightPdf tb sampler p h2] at htotal ⊢
  have hnn := lightWeights_nonneg (fun l => tb.scene.approximateRadiance l tb.threadId p)
    tb.scene.lights
  have htot := lightWeights_total (fun l => tb.scene.approximateRadiance l tb.threadId p)
    tb.scene.lights
  have hpos : 0 < (lightWeights (fun l => tb.scene.approximateRadiance l tb.threadId p)
      tb.scene.lights).1.sum :=
    lt_of_le_of_ne (List.sum_nonneg hnn) (Ne.symm htotal)
  obtain ⟨j, w, hj, hw, hs, hlo, hhi⟩ := scanLights_spec
    (lightWeights (fun l => tb.scene.approximateRadiance l tb.threadId p) tb.scene.lights).1.sum
    (lightWeights (fun l => tb.scene.approximateRadiance l tb.threadId p) tb.scene.lights).1
    0 (sampler.next1D.1 * (lightWeights (fun l => tb.scene.approximateRadiance l tb.threadId p)
      tb.scene.lights).1.sum) hnn (mul_nonneg hu0 hpos.le)
    (by nlinarith)
  refine ⟨j, w, hj, hw, ?_, hlo, hhi⟩
  rw [chooseLight_of_two_le tb sampler p h2]
  simp only [htot, if_neg htotal]
  rw [hs]
  simp

theorem fillUnknown_first_unknown (k : Nat) (ws : List ℚ) (t : ℚ) (i : Nat)
    (hneg : ws.getD i 0 < 0) (hfirst : ∀ j < i, 0 ≤ ws.getD j 0) :
    (fillUnknown k ws t).1.getD i 0 = (if t = 0 then 1 else t) / (k : ℚ) := by
  induction ws generalizing i with
  | nil => simp at hneg
  | cons w ws ih =>
    cases i with
    | zero =>
      have hw : w < 0 := by simpa using hneg
      simp [fillUnknown, hw]
    | succ i =>
      have hw : ¬ w < 0 := by
        have := hfirst 0 (Nat.succ_pos i)
        simp at this
        exact not_lt.mpr this
      have hneg' : ws.getD i 0 < 0 := by simpa using hneg
      have hfirst' : ∀ j < i, 0 ≤ ws.getD j 0 := by
        intro j hj
        have := hfirst (j + 1) (by omega)
        simpa using this
      simp only [fillUnknown, hw, if_false]
      simpa using ih i hneg' hfirst'

theorem nonnegCount_lt_of_neg (rs : List ℚ) (i : Nat) (hneg : rs.getD i 0 < 0) :
    nonnegCount rs < rs.length := by
  have hle := nonnegCount_le rs
  rcases Nat.lt_or_ge (nonnegCount rs) rs.length with h | h
  · exact h
  · have hall := nonneg_of_nonnegCount_eq rs (by omega)
    have hi : i < rs.length := by
      by_contra hge
      rw [List.getD_eq_default _ _ (by omega)] at hneg
      exact lt_irrefl _ hneg
    have := hall (rs.getD i 0) (by
      rw [List.getD_eq_getElem _ _ hi]
      exact List.getElem_mem _)
    linarith

/-! ## Light selection: the claims -/

/-- C1: with at least two lights and a draw in `[0,1)`, whenever `chooseLight`
returns light `i` with selection weight `weight`, the final weight `w_i` of
that light is non-zero and `weight * w_i` is the sum of the final weights of
all lights. -/
theorem chooseLight_weight_mul_pdf (tb : TraceBase) (sampler : SampleGenerator) (p : Vec3f)
    (i : Nat) (weight : ℚ)
    (h2 : 2 ≤ tb.scene.lights.length)
    (hu0 : 0 ≤ sampler.next1D.1) (hu1 : sampler.next1D.1 < 1)
    (hc : (chooseLight tb sampler p).chosen = some (i, weight)) :
    i < (chooseLight tb sampler p).lightPdf.length ∧
    (chooseLight tb sampler p).lightPdf.getD i 0 ≠ 0 ∧
    weight * (chooseLight tb sampler p).lightPdf.getD i 0
      = (chooseLight tb sampler p).lightPdf.sum := by
  have htotal : (chooseLight tb sampler p).lightPdf.sum ≠ 0 := by
    intro h0
    rw [chooseLight_lightPdf tb sampler p h2, ← lightWeights_total] at h0
    rw [chooseLight_of_two_le tb sampler p h2] at hc
    simp [h0] at hc
  obtain ⟨j, w, hj, hw, hs, _, _⟩ := chooseLight_scan tb sampler p h2 htotal hu0 hu1
  rw [hs] at hc
  simp only [Option.some.injEq, Prod.mk.injEq] at hc
  obtain ⟨hji, hwt⟩ := hc
  subst hji
  have hlen : j < (chooseLight tb sampler p).lightPdf.length := by
    rcases List.getElem?_eq_some.mp hj with ⟨h, _⟩
    exact h
  have hget : (chooseLight tb sampler p).lightPdf.getD j 0 = w := by
    simp [List.getD_eq_getElem?_getD, hj]
  refine ⟨hlen, ?_, ?_⟩
  · rw [hget]; exact ne_of_gt hw
  · rw [hget, ← hwt]
    field_simp

/-- C1 at three lights with approximate radiances 2, unknown, unknown and the
draw 1/2: the third light is returned with weight 2. -/
theorem chooseLight_weight_mul_pdf_witness :
    (chooseLight (lightsOnly [0, 1, 2] (fun l => if l = 0 then 2 else -1))
        (constSampler (1 / 2)) (Vec3f.splat 0)).chosen = some (2, 2) ∧
    (2 < (chooseLight (lightsOnly [0, 1, 2] (fun l => if l = 0 then 2 else -1))
        (constSampler (1 / 2)) (Vec3f.splat 0)).lightPdf.length ∧
    (chooseLight (lightsOnly [0, 1, 2] (fun l => if l = 0 then 2 else -1))
        (constSampler (1 / 2)) (Vec3f.splat 0)).lightPdf.getD 2 0 ≠ 0 ∧
    2 * (chooseLight (lightsOnly [0, 1, 2] (fun l => if l = 0 then 2 else -1))
        (constSampler (1 / 2)) (Vec3f.splat 0)).lightPdf.getD 2 0
      = (chooseLight (lightsOnly [0, 1, 2] (fun l => if l = 0 then 2 else -1))
        (constSampler (1 / 2)) (Vec3f.splat 0)).lightPdf.sum) :=
  have hc : (chooseLight (lightsOnly [0, 1, 2] (fun l => if l = 0 then 2 else -1))
        (constSampler (1 / 2)) (Vec3f.splat 0)).chosen = some (2, 2) := by
    norm_num [chooseLight, lightsOnly, emptyScene, constSampler, SampleGenerator.next1D,
      lightWeights, gatherRadiance, fillUnknown, scanLights]
  ⟨hc, chooseLight_weight_mul_pdf _ _ _ 2 2 (by simp [lightsOnly, emptyScene])
    (by norm_num [constSampler, SampleGenerator.next1D])
    (by norm_num [constSampler, SampleGenerator.next1D]) hc⟩

/-- C2: with at least two lights, final weights of positive total and a draw `u`
in `[0,1)`, `chooseLight` returns light `i` exactly when
`w_0 + ... + w_{i-1} ≤ u*total < w_0 + ... + w_i`; the returned weight is the
reciprocal of `w_i/total`, the length of that interval of draws; and the final
weights do not depend on the sampler. -/
theorem chooseLight_selects_iff (tb : TraceBase) (sampler : SampleGenerator) (p : Vec3f)
    (i : Nat)
    (h2 : 2 ≤ tb.scene.lights.length)
    (htotal : 0 < (chooseLight tb sampler p).lightPdf.sum)
    (hu0 : 0 ≤ sampler.next1D.1) (hu1 : sampler.next1D.1 < 1) :
    ((∃ weight, (chooseLight tb sampler p).chosen = some (i, weight)) ↔
      (((chooseLight tb sampler p).lightPdf.take i).sum
          ≤ sampler.next1D.1 * (chooseLight tb sampler p).lightPdf.sum ∧
        sampler.next1D.1 * (chooseLight tb sampler p).lightPdf.sum
          < ((chooseLight tb sampler p).lightPdf.take (i + 1)).sum)) ∧
    (∀ weight, (chooseLight tb sampler p).chosen = some (i, weight) →
      weight⁻¹ = (chooseLight tb sampler p).lightPdf.getD i 0
          / (chooseLight tb sampler p).lightPdf.sum ∧
      (((chooseLight tb sampler p).lightPdf.take (i + 1)).sum
          / (chooseLight tb sampler p).lightPdf.sum
        - ((chooseLight tb sampler p).lightPdf.take i).sum
          / (chooseLight tb sampler p).lightPdf.sum) = weight⁻¹) ∧
    (∀ sampler', (chooseLight tb sampler' p).lightPdf = (chooseLight tb sampler p).lightPdf) := by
  obtain ⟨j, w, hj, hw, hs, hlo, hhi⟩ :=
    chooseLight_scan tb sampler p h2 (ne_of_gt htotal) hu0 hu1
  have hnn : ∀ x ∈ (chooseLight tb sampler p).lightPdf, 0 ≤ x := by
    rw [chooseLight_lightPdf tb sampler p h2]
    exact lightWeights_nonneg _ _
  refine ⟨⟨?_, ?_⟩, ?_, ?_⟩
  · rintro ⟨weight, hc⟩
    rw [hs] at hc
    simp only [Option.some.injEq, Prod.mk.injEq] at hc
    rw [← hc.1]
    exact ⟨hlo, hhi⟩
  · rintro ⟨hlo', hhi'⟩
    have hij : i = j := by
      rcases Nat.lt_trichotomy i j with h | h | h
      · have := take_sum_mono _ hnn (i + 1) j h
        linarith
      · exact h
      · have := take_sum_mono _ hnn (j + 1) i h
        linarith
    rw [hij]
    exact ⟨_, hs⟩
  · intro weight hc
    rw [hs] at hc
    simp only [Option.some.injEq, Prod.mk.injEq] at hc
    obtain ⟨hji, hwt⟩ := hc
    subst hji
    have hget : (chooseLight tb sampler p).lightPdf.getD j 0 = w := by
      simp [List.getD_eq_getElem?_getD, hj]
    rw [hget, take_sum_succ _ j w hj, ← hwt]
    constructor
    · rw [inv_div]
    · rw [inv_div]
      field_simp
  · intro sampler'
    rw [chooseLight_lightPdf tb sampler p h2, chooseLight_lightPdf tb sampler' p h2]

/-- C2 at three lights with approximate radiances 2, unknown, unknown (final
weights 2, 2, 4 of total 8) and the draw 1/2, for the third light. -/
theorem chooseLight_selects_iff_witness :
    ((∃ weight, (chooseLight (lightsOnly [0, 1, 2] (fun l => if l = 0 then 2 else -1))
        (constSampler (1 / 2)) (Vec3f.splat 0)).chosen = some (2, weight)) ↔
      (((chooseLight (lightsOnly [0, 1, 2] (fun l => if l = 0 then 2 else -1))
          (constSampler (1 / 2)) (Vec3f.splat 0)).lightPdf.take 2).sum
          ≤ (constSampler (1 / 2)).next1D.1
            * (chooseLight (lightsOnly [0, 1, 2] (fun l => if l = 0 then 2 else -1))
              (constSampler (1 / 2)) (Vec3f.splat 0)).lightPdf.sum ∧
        (constSampler (1 / 2)).next1D.1
            * (chooseLight (lightsOnly [0, 1, 2] (fun l => if l = 0 then 2 else -1))
              (constSampler (1 / 2)) (Vec3f.splat 0)).lightPdf.sum
          < ((chooseLight (lightsOnly [0, 1, 2] (fun l => if l = 0 then 2 else -1))
              (constSampler (1 / 2)) (Vec3f.splat 0)).lightPdf.take (2 + 1)).sum)) ∧
    (chooseLight (lightsOnly [0, 1, 2] (fun l => if l = 0 then 2 else -1))
        (constSampler (1 / 2)) (Vec3f.splat 0)).lightPdf = [2, 2, 4] :=
  ⟨(chooseLight_selects_iff (lightsOnly [0, 1, 2] (fun l => if l = 0 then 2 else -1))
      (constSampler (1 / 2)) (Vec3f.splat 0) 2 (by simp [lightsOnly, emptyScene])
      (by norm_num [chooseLight, lightsOnly, emptyScene, constSampler, SampleGenerator.next1D,
        lightWeights, gatherRadiance, fillUnknown, scanLights])
      (by norm_num [constSampler, SampleGenerator.next1D])
      (by norm_num [constSampler, SampleGenerator.next1D])).1,
   by norm_num [chooseLight, lightsOnly, emptyScene, constSampler, SampleGenerator.next1D,
        lightWeights, gatherRadiance, fillUnknown, scanLights]⟩

/-- C3 (as amended): when at least one light reports a known (non-negative)
approximate radiance, the first light reporting an unknown (negative) one gets
the final weight `S/k`, where `k` is the number of known lights and `S` the sum
of their values, replaced by 1 when that sum is 0. -/
theorem chooseLight_first_unknown_weight (tb : TraceBase) (sampler : SampleGenerator)
    (p : Vec3f) (i : Nat)
    (h2 : 2 ≤ tb.scene.lights.length)
    (hknown : 0 < nonnegCount
      (tb.scene.lights.map (fun l => tb.scene.approximateRadiance l tb.threadId p)))
    (hneg : (tb.scene.lights.map (fun l => tb.scene.approximateRadiance l tb.threadId p)).getD
      i 0 < 0)
    (hfirst : ∀ j < i, 0 ≤
      (tb.scene.lights.map (fun l => tb.scene.approximateRadiance l tb.threadId p)).getD j 0) :
    (chooseLight tb sampler p).lightPdf.getD i 0 =
      (if nonnegSum (tb.scene.lights.map (fun l => tb.scene.approximateRadiance l tb.threadId p))
          = 0 then 1
        else nonnegSum
          (tb.scene.lights.map (fun l => tb.scene.approximateRadiance l tb.threadId p)))
      / (nonnegCount
          (tb.scene.lights.map (fun l => tb.scene.approximateRadiance l tb.threadId p)) : ℚ) := by
  rw [chooseLight_lightPdf tb sampler p h2]
  have hlt := nonnegCount_lt_of_neg _ i hneg
  unfold lightWeights
  simp only [gatherRadiance_fst, gatherRadiance_total, gatherRadiance_count, zero_add]
  rw [if_neg (by omega), if_pos hlt]
  exact fillUnknown_first_unknown _ _ _ i hneg hfirst

/-- C3 (as amended) at three lights with approximate radiances 2, unknown, unknown:
the second light, the first unknown one, gets the weight 2/1. -/
theorem chooseLight_first_unknown_weight_witness :
    (chooseLight (lightsOnly [0, 1, 2] (fun l => if l = 0 then 2 else -1))
      (constSampler (1 / 2)) (Vec3f.splat 0)).lightPdf.getD 1 0 =
      (if nonnegSum (([0, 1, 2] : List PrimitivePtr).map
          (fun l => if l = 0 then (2 : ℚ) else -1)) = 0 then 1
        else nonnegSum (([0, 1, 2] : List PrimitivePtr).map
          (fun l => if l = 0 then (2 : ℚ) else -1)))
      / (nonnegCount (([0, 1, 2] : List PrimitivePtr).map
          (fun l => if l = 0 then (2 : ℚ) else -1)) : ℚ) :=
  chooseLight_first_unknown_weight (lightsOnly [0, 1, 2] (fun l => if l = 0 then 2 else -1))
    (constSampler (1 / 2)) (Vec3f.splat 0) 1 (by simp [lightsOnly, emptyScene])
    (by simp [lightsOnly, emptyScene, nonnegCount, List.filter])
    (by norm_num [lightsOnly, emptyScene])
    (by
      intro j hj
      have hj0 : j = 0 := by omega
      subst hj0
      norm_num [lightsOnly, emptyScene])

/-- C3 as stated fails: with approximate radiances 0 and unknown, the unknown
light gets the weight 1, not the average 0 of the known lights; and with
approximate radiances 2, unknown, unknown, the two unknown lights get the
different weights 2 and 4. -/
theorem chooseLight_unknown_average_counterexample :
    ¬ (∀ j, (([0, 1] : List PrimitivePtr).map (fun l => if l = 0 then (0 : ℚ) else -1)).getD j 0
          < 0 →
        (chooseLight (lightsOnly [0, 1] (fun l => if l = 0 then 0 else -1))
          (constSampler (1 / 2)) (Vec3f.splat 0)).lightPdf.getD j 0 =
        nonnegSum (([0, 1] : List PrimitivePtr).map (fun l => if l = 0 then (0 : ℚ) else -1))
          / (nonnegCount
            (([0, 1] : List PrimitivePtr).map (fun l => if l = 0 then (0 : ℚ) else -1)) : ℚ)) ∧
    (chooseLight (lightsOnly [0, 1] (fun l => if l = 0 then 0 else -1))
      (constSampler (1 / 2)) (Vec3f.splat 0)).lightPdf = [0, 1] ∧
    (chooseLight (lightsOnly [0, 1, 2] (fun l => if l = 0 then 2 else -1))
      (constSampler (1 / 2)) (Vec3f.splat 0)).lightPdf = [2, 2, 4] := by
  refine ⟨?_, ?_, ?_⟩
  · intro h
    have h1 := h 1 (by norm_num)
    norm_num [chooseLight, lightsOnly, emptyScene, lightWeights, gatherRadiance, fillUnknown,
      nonnegSum, nonnegCount, List.filter] at h1
  · norm_num [chooseLight, lightsOnly, emptyScene, lightWeights, gatherRadiance, fillUnknown]
  · norm_num [chooseLight, lightsOnly, emptyScene, lightWeights, gatherRadiance, fillUnknown]

/-- C4: with exactly one light `chooseLight` returns that light (index 0) with
weight exactly 1, whatever the shading point and the sampler; the sampler is
left as it was (no draw), no approximate radiance is queried and `_lightPdf`
is not touched. -/
theorem chooseLight_single_light (tb : TraceBase) (sampler : SampleGenerator) (p : Vec3f)
    (h1 : tb.scene.lights.length = 1) :
    (chooseLight tb sampler p).chosen = some (0, 1) ∧
    (chooseLight tb sampler p).sampler.pos = sampler.pos ∧
    (chooseLight tb sampler p).sampler.draws = sampler.draws ∧
    (chooseLight tb sampler p).radianceQueries = 0 ∧
    (chooseLight tb sampler p).lightPdf = tb.lightPdf := by
  have hne : tb.scene.lights.isEmpty = false := by
    cases hl : tb.scene.lights with
    | nil => simp [hl] at h1
    | cons _ _ => rfl
  simp [chooseLight, hne, h1]

/-- C4 at a scene whose only light is primitive 5. -/
theorem chooseLight_single_light_witness :
    (chooseLight (lightsOnly [5] (fun _ => 3)) (constSampler (1 / 2)) (Vec3f.splat 0)).chosen
      = some (0, 1) :=
  (chooseLight_single_light (lightsOnly [5] (fun _ => 3)) (constSampler (1 / 2)) (Vec3f.splat 0)
    (by simp [lightsOnly, emptyScene])).1

/-! ## Generalized shadow ray: lemmas -/

/-- An iteration that does not return has crossed a surface: the bounce count has
been incremented and is still below the maximum. -/
theorem int32Wrap_of_range (n : Int) (hlo : -2147483648 ≤ n) (hhi : n < 2147483648) :
    int32Wrap n = n := by
  unfold int32Wrap
  omega

theorem shadowRayIteration_next (tb : TraceBase) (endCap : Option PrimitivePtr)
    (s s' : ShadowState) (h : shadowRayIteration tb endCap s = ShadowStep.next s') :
    s'.bounce = int32Wrap (s.bounce + 1) ∧
      int32Wrap (s.bounce + 1) < tb.settings.maxBounces := by
  unfold shadowRayIteration at h
  cases hq : (tb.scene.intersect s.ray).2 with
  | none => simp [hq] at h
  | some hit =>
    obtain ⟨data, info⟩ := hit
    by_cases he : some info.primitive = endCap
    · simp [hq, he] at h
    · by_cases hz : (tb.scene.eval info.bsdf
          (makeLocalScatterEvent tb data info (tb.scene.intersect s.ray).1).makeForwardEvent
          false).eqScalar 0 = true
      · simp [hq, he, hz] at h
      · by_cases hb : tb.settings.maxBounces ≤ int32Wrap (s.bounce + 1)
        · simp [hq, he, hz, hb] at h
        · simp [hq, he, hz, hb] at h
          rw [← h]
          exact ⟨rfl, not_le.mp hb⟩

theorem shadowRayLoop_reach (tb : TraceBase) (endCap : Option PrimitivePtr) (n k : Nat)
    (s0 s : ShadowState) (h : shadowRayReach tb endCap n s0 = some s) :
    shadowRayLoop tb endCap (n + k) s0 =
      (shadowRayLoop tb endCap k s).map (fun r => (r.1, r.2 + n)) := by
  induction n generalizing s0 with
  | zero =>
    simp only [shadowRayReach, Option.some.injEq] at h
    subst h
    rw [Nat.zero_add]
    cases shadowRayLoop tb endCap k s0 <;> simp
  | succ n ih =>
    simp only [shadowRayReach] at h
    rw [show n + 1 + k = (n + k) + 1 by omega]
    simp only [shadowRayLoop]
    cases hstep : shadowRayIteration tb endCap s0 with
    | done v => simp [hstep] at h
    | next s1 =>
      simp only [hstep] at h
      dsimp only
      rw [ih s1 h]
      cases shadowRayLoop tb endCap k s <;> simp [Nat.add_assoc]

/-- Started below `INT_MAX`, the bounce count never wraps and the loop returns
within `max(1, maxBounces - bounce)` iterations. -/
theorem shadowRayLoop_bound (tb : TraceBase) (endCap : Option PrimitivePtr) (fuel : Nat)
    (s : ShadowState)
    (hlo : -2147483648 ≤ s.bounce) (hhi : s.bounce < 2147483647)
    (hmax : tb.settings.maxBounces ≤ 2147483647)
    (hfuel : (max 1 (tb.settings.maxBounces - s.bounce)).toNat ≤ fuel) :
    ∃ v q, shadowRayLoop tb endCap fuel s = some (v, q) ∧ 1 ≤ q ∧
      q ≤ (max 1 (tb.settings.maxBounces - s.bounce)).toNat := by
  induction fuel generalizing s with
  | zero => omega
  | succ fuel ih =>
    simp only [shadowRayLoop]
    cases hstep : shadowRayIteration tb endCap s with
    | done v => exact ⟨v, 1, rfl, le_refl _, by omega⟩
    | next s1 =>
      obtain ⟨hb, hlt⟩ := shadowRayIteration_next tb endCap s s1 hstep
      rw [int32Wrap_of_range (s.bounce + 1) (by omega) (by omega)] at hb hlt
      obtain ⟨v, q, hq, h1, hle⟩ := ih s1 (by rw [hb]; omega) (by rw [hb]; omega)
        (by rw [hb]; omega)
      refine ⟨v, q + 1, by simp [hq], by omega, ?_⟩
      rw [hb] at hle
      omega

/-- For 32-bit values of `maxBounces` and of the starting bounce count, the loop
returns within `shadowRayFuel` iterations. -/
theorem shadowRayLoop_fuel (tb : TraceBase) (endCap : Option PrimitivePtr) (s : ShadowState)
    (hlo : -2147483648 ≤ s.bounce) (hhi : s.bounce ≤ 2147483647)
    (hmax : tb.settings.maxBounces ≤ 2147483647) :
    ∃ r, shadowRayLoop tb endCap (shadowRayFuel tb.settings.maxBounces s.bounce) s = some r := by
  by_cases hb : s.bounce < 2147483647
  · obtain ⟨v, q, hq, _, _⟩ := shadowRayLoop_bound tb endCap
      (shadowRayFuel tb.settings.maxBounces s.bounce) s hlo hb hmax
      (by simp [shadowRayFuel, hb])
    exact ⟨(v, q), hq⟩
  · have he : s.bounce = 2147483647 := by omega
    simp only [shadowRayFuel, hb, if_false, shadowRayLoop]
    cases hstep : shadowRayIteration tb endCap s with
    | done v => exact ⟨(v, 1), rfl⟩
    | next s1 =>
      obtain ⟨hs1, _⟩ := shadowRayIteration_next tb endCap s s1 hstep
      have hw : s1.bounce = -2147483648 := by
        rw [hs1, he]
        decide
      obtain ⟨v, q, hq, _, _⟩ := shadowRayLoop_bound tb endCap
        (max 1 (tb.settings.maxBounces + 2147483648)).toNat s1 (by omega) (by omega) hmax
        (by rw [hw]; omega)
      exact ⟨(v, q + 1), by simp [hq]⟩

theorem shadowRayLoop_mono (tb : TraceBase) (endCap : Option PrimitivePtr) (fuel k : Nat)
    (s : ShadowState) (r : Vec3f × Nat) (h : shadowRayLoop tb endCap fuel s = some r) :
    shadowRayLoop tb endCap (fuel + k) s = some r := by
  induction fuel generalizing s r with
  | zero => simp [shadowRayLoop] at h
  | succ fuel ih =>
    rw [show fuel + 1 + k = (fuel + k) + 1 by omega]
    simp only [shadowRayLoop] at h ⊢
    cases hstep : shadowRayIteration tb endCap s with
    | done v => simpa [hstep] using h
    | next s1 =>
      simp only [hstep] at h ⊢
      cases hl : shadowRayLoop tb endCap fuel s1 with
      | none => simp [hl] at h
      | some r1 =>
        rw [ih s1 r1 hl]
        simpa [hl] using h

/-! ## Generalized shadow ray: the claims -/

/-- C5: in a scene in which no ray intersects anything, without an active medium,
`generalizedShadowRay` started at bounce count 0 returns (1,1,1) if
`minBounces` is 0 and (0,0,0) if `minBounces` is greater than 0, for every ray
and every end cap (after one scene query). -/
theorem generalizedShadowRay_empty_scene (tb : TraceBase) (fuel : Nat) (ray : Ray)
    (endCap : Option PrimitivePtr)
    (hempty : ∀ r, (tb.scene.intersect r).2 = none) :
    (tb.settings.minBounces = 0 →
      generalizedShadowRay tb (fuel + 1) ray none endCap 0 = some (Vec3f.splat 1, 1)) ∧
    (0 < tb.settings.minBounces →
      generalizedShadowRay tb (fuel + 1) ray none endCap 0 = some (Vec3f.splat 0, 1)) := by
  constructor
  · intro h0
    simp [generalizedShadowRay, shadowRayLoop, shadowRayIteration, shadowRayInit, hempty, h0]
  · intro hpos
    have hn : ¬ tb.settings.minBounces ≤ 0 := not_le.mpr hpos
    simp [generalizedShadowRay, shadowRayLoop, shadowRayIteration, shadowRayInit, hempty, hn]

/-- C5 at the empty scene, with `minBounces` 0 and with `minBounces` 2. -/
theorem generalizedShadowRay_empty_scene_witness :
    generalizedShadowRay ⟨emptyScene [] (fun _ => 0), plainSettings 0 8, 0, []⟩ 1 zRay none
      (some 3) 0 = some (Vec3f.splat 1, 1) ∧
    generalizedShadowRay ⟨emptyScene [] (fun _ => 0), plainSettings 2 8, 0, []⟩ 1 zRay none
      (some 3) 0 = some (Vec3f.splat 0, 1) :=
  ⟨(generalizedShadowRay_empty_scene ⟨emptyScene [] (fun _ => 0), plainSettings 0 8, 0, []⟩ 0
      zRay (some 3) (fun _ => rfl)).1 rfl,
   (generalizedShadowRay_empty_scene ⟨emptyScene [] (fun _ => 0), plainSettings 2 8, 0, []⟩ 0
      zRay (some 3) (fun _ => rfl)).2 (by decide)⟩

/-- C6: if the walk of `generalizedShadowRay` reaches, after `n` surfaces, a surface
that is not the end cap and whose pass-through (forward) response is zero, the
result is (0,0,0), for every ray, starting bounce count, settings and active
medium (present or absent). -/
theorem generalizedShadowRay_zero_response (tb : TraceBase) (fuel : Nat) (ray : Ray)
    (medium : Option MediumPtr) (endCap : Option PrimitivePtr) (bounce : Int)
    (n : Nat) (s : ShadowState) (data : IntersectionTemporary) (info : IntersectionInfo)
    (hreach : shadowRayReach tb endCap n (shadowRayInit ray medium bounce) = some s)
    (hhit : (tb.scene.intersect s.ray).2 = some (data, info))
    (hnot : some info.primitive ≠ endCap)
    (hzero : (tb.scene.eval info.bsdf
      (makeLocalScatterEvent tb data info (tb.scene.intersect s.ray).1).makeForwardEvent
      false).eqScalar 0 = true)
    (hfuel : n < fuel) :
    generalizedShadowRay tb fuel ray medium endCap bounce = some (Vec3f.splat 0, n + 1) := by
  obtain ⟨k, rfl⟩ : ∃ k, fuel = n + (k + 1) := ⟨fuel - n - 1, by omega⟩
  unfold generalizedShadowRay
  rw [shadowRayLoop_reach tb endCap n (k + 1) _ s hreach]
  simp [shadowRayLoop, shadowRayIteration, hhit, hnot, hzero, Nat.add_comm]

/-- C6 at the wall scene with a transparent wall followed by an opaque one, inside
medium 0: the second surface reached is opaque and the result is (0,0,0)
after two scene queries. -/
theorem generalizedShadowRay_zero_response_witness :
    generalizedShadowRay (wallTracer glassThenBlocker 0 8) 5 zRay (some 0) none 0
      = some (Vec3f.splat 0, 1 + 1) :=
  generalizedShadowRay_zero_response (wallTracer glassThenBlocker 0 8) 5 zRay (some 0) none 0 1
    ⟨⟨⟨0, 0, 1⟩, ⟨0, 0, 1⟩, 1 / 1000, 9, false⟩, some 0, 1, 9, ⟨1 / 2, 1 / 2, 1 / 2⟩⟩
    ⟨0⟩ ⟨⟨0, 0, 1⟩, ⟨0, 0, 1⟩, ⟨0, 0, 2⟩, ⟨0, 0, 1⟩, 1 / 1000, 1, 1⟩
    (by
      simp [shadowRayReach, shadowRayIteration, shadowRayInit, wallTracer, wallScene,
        glassThenBlocker, zRay, makeLocalScatterEvent, SurfaceScatterEvent.makeForwardEvent,
        Vec3f.eqScalar, Vec3f.splat, Vec3f.mul, Vec3f.add, Vec3f.scale, Ray.hitpoint,
        int32Wrap]
      norm_num)
    (by
      norm_num [wallTracer, wallScene, Vec3f.add])
    (by simp)
    (by
      norm_num [wallTracer, wallScene, glassThenBlocker, Vec3f.eqScalar, Vec3f.splat])
    (by decide)

/-- C7 (as amended): at a hit on a surface other than the end cap whose pass-through
response is non-zero, the iteration returns (0,0,0) exactly when the bounce
count, incremented for that surface, has reached `maxBounces` (is greater than
or equal to it); otherwise the walk goes on with the incremented count.  The
increment is that of a 32-bit `int`: it is `bounce + 1` below `INT_MAX`. -/
theorem shadowRayIteration_fails_iff (tb : TraceBase) (endCap : Option PrimitivePtr)
    (s : ShadowState) (data : IntersectionTemporary) (info : IntersectionInfo)
    (hhit : (tb.scene.intersect s.ray).2 = some (data, info))
    (hnot : some info.primitive ≠ endCap)
    (hnz : (tb.scene.eval info.bsdf
      (makeLocalScatterEvent tb data info (tb.scene.intersect s.ray).1).makeForwardEvent
      false).eqScalar 0 = false) :
    (shadowRayIteration tb endCap s = ShadowStep.done (Vec3f.splat 0) ↔
      tb.settings.maxBounces ≤ int32Wrap (s.bounce + 1)) ∧
    (¬ tb.settings.maxBounces ≤ int32Wrap (s.bounce + 1) →
      ∃ s', shadowRayIteration tb endCap s = ShadowStep.next s' ∧
        s'.bounce = int32Wrap (s.bounce + 1)) ∧
    (-2147483648 ≤ s.bounce → s.bounce < 2147483647 →
      ((shadowRayIteration tb endCap s = ShadowStep.done (Vec3f.splat 0) ↔
          tb.settings.maxBounces ≤ s.bounce + 1) ∧
        (¬ tb.settings.maxBounces ≤ s.bounce + 1 →
          ∃ s', shadowRayIteration tb endCap s = ShadowStep.next s' ∧
            s'.bounce = s.bounce + 1))) := by
  have key : (shadowRayIteration tb endCap s = ShadowStep.done (Vec3f.splat 0) ↔
        tb.settings.maxBounces ≤ int32Wrap (s.bounce + 1)) ∧
      (¬ tb.settings.maxBounces ≤ int32Wrap (s.bounce + 1) →
        ∃ s', shadowRayIteration tb endCap s = ShadowStep.next s' ∧
          s'.bounce = int32Wrap (s.bounce + 1)) := by
    by_cases hb : tb.settings.maxBounces ≤ int32Wrap (s.bounce + 1)
    · simp [shadowRayIteration, hhit, hnot, hnz, hb]
    · simp [shadowRayIteration, hhit, hnot, hnz, hb]
  refine ⟨key.1, key.2, ?_⟩
  intro hlo hhi
  rw [int32Wrap_of_range (s.bounce + 1) (by omega) (by omega)] at key
  exact key

/-- C7 (as amended) at a transparent wall with `maxBounces` 1 and bounce count 0. -/
theorem shadowRayIteration_fails_iff_witness :
    shadowRayIteration (wallTracer (fun _ => Vec3f.splat 1) 0 1) none (shadowRayInit zRay none 0)
        = ShadowStep.done (Vec3f.splat 0) ↔
      (wallTracer (fun _ => Vec3f.splat 1) 0 1).settings.maxBounces
        ≤ (shadowRayInit zRay none 0).bounce + 1 :=
  ((shadowRayIteration_fails_iff (wallTracer (fun _ => Vec3f.splat 1) 0 1) none
    (shadowRayInit zRay none 0) ⟨0⟩
    ⟨⟨0, 0, 1⟩, ⟨0, 0, 1⟩, ⟨0, 0, 1⟩, ⟨0, 0, 1⟩, 1 / 1000, 1, 0⟩
    (by norm_num [wallTracer, wallScene, shadowRayInit, zRay, Vec3f.add])
    (by simp)
    (by norm_num [wallTracer, wallScene, Vec3f.eqScalar, Vec3f.splat])).2.2
    (by decide) (by decide)).1

/-- C7 as stated fails: at a transparent wall (not the end cap, response (1,1,1))
with `maxBounces` 1 and bounce count 0, the incremented count 1 is not
strictly greater than `maxBounces`, yet the iteration returns (0,0,0). -/
theorem shadowRayIteration_exceeds_counterexample :
    ¬ (shadowRayIteration (wallTracer (fun _ => Vec3f.splat 1) 0 1) none
          (shadowRayInit zRay none 0) = ShadowStep.done (Vec3f.splat 0) ↔
        (wallTracer (fun _ => Vec3f.splat 1) 0 1).settings.maxBounces
          < (shadowRayInit zRay none 0).bounce + 1) ∧
    ((wallTracer (fun _ => Vec3f.splat 1) 0 1).scene.intersect (shadowRayInit zRay none 0).ray).2
      = some (⟨0⟩, ⟨⟨0, 0, 1⟩, ⟨0, 0, 1⟩, ⟨0, 0, 1⟩, ⟨0, 0, 1⟩, 1 / 1000, 1, 0⟩) ∧
    ((wallTracer (fun _ => Vec3f.splat 1) 0 1).scene.eval 0
      (makeLocalScatterEvent (wallTracer (fun _ => Vec3f.splat 1) 0 1) ⟨0⟩
        ⟨⟨0, 0, 1⟩, ⟨0, 0, 1⟩, ⟨0, 0, 1⟩, ⟨0, 0, 1⟩, 1 / 1000, 1, 0⟩
        ((wallTracer (fun _ => Vec3f.splat 1) 0 1).scene.intersect
          (shadowRayInit zRay none 0).ray).1).makeForwardEvent false).eqScalar 0 = false ∧
    generalizedShadowRay (wallTracer (fun _ => Vec3f.splat 1) 0 1) 1 zRay none none 0
      = some (Vec3f.splat 0, 1) := by
  have hstep : shadowRayIteration (wallTracer (fun _ => Vec3f.splat 1) 0 1) none
      (shadowRayInit zRay none 0) = ShadowStep.done (Vec3f.splat 0) := by
    simp [shadowRayIteration, shadowRayInit, wallTracer, wallScene, zRay,
      makeLocalScatterEvent, SurfaceScatterEvent.makeForwardEvent, Vec3f.eqScalar, Vec3f.splat,
      int32Wrap]
  refine ⟨?_, ?_, ?_, ?_⟩
  · intro h
    have := h.mp hstep
    norm_num [wallTracer, shadowRayInit] at this
  · norm_num [wallTracer, wallScene, shadowRayInit, zRay, Vec3f.add]
  · norm_num [wallTracer, wallScene, Vec3f.eqScalar, Vec3f.splat]
  · simp only [generalizedShadowRay, shadowRayLoop, hstep]

/-- C8 (as amended): for every scene oracle, medium and end cap, and every starting
bounce count below `INT_MAX = 2147483647` (bounce count and `maxBounces` being
32-bit values), the loop of `generalizedShadowRay` terminates: given at least
`max(1, maxBounces - bounce)` iterations it returns a value, the same for
every such allowance, after at least one and at most
`max(1, maxBounces - bounce)` scene intersection queries. -/
theorem generalizedShadowRay_terminates (tb : TraceBase) (ray : Ray)
    (medium : Option MediumPtr) (endCap : Option PrimitivePtr) (bounce : Int)
    (hlo : -2147483648 ≤ bounce) (hhi : bounce < 2147483647)
    (hmax : tb.settings.maxBounces ≤ 2147483647) :
    ∃ v q, (∀ fuel, (max 1 (tb.settings.maxBounces - bounce)).toNat ≤ fuel →
        generalizedShadowRay tb fuel ray medium endCap bounce = some (v, q)) ∧
      1 ≤ q ∧ (q : Int) ≤ max 1 (tb.settings.maxBounces - bounce) := by
  obtain ⟨v, q, hq, h1, hle⟩ := shadowRayLoop_bound tb endCap
    (max 1 (tb.settings.maxBounces - bounce)).toNat (shadowRayInit ray medium bounce)
    hlo hhi hmax (le_refl _)
  refine ⟨v, q, ?_, h1, ?_⟩
  · intro fuel hfuel
    obtain ⟨k, rfl⟩ : ∃ k, fuel = (max 1 (tb.settings.maxBounces - bounce)).toNat + k :=
      ⟨fuel - (max 1 (tb.settings.maxBounces - bounce)).toNat, by omega⟩
    exact shadowRayLoop_mono tb endCap _ k _ _ hq
  · have : (shadowRayInit ray medium bounce).bounce = bounce := rfl
    rw [this] at hle
    omega

/-- C8 (as amended) at a scene of transparent walls with `maxBounces` 3 and bounce
count 0: the walk makes exactly three scene queries, the bound `max(1, 3 - 0)`. -/
theorem generalizedShadowRay_terminates_witness :
    generalizedShadowRay (wallTracer (fun _ => Vec3f.splat 1) 0 3) 3 zRay none none 0
      = some (Vec3f.splat 0, 3) ∧
    ∃ v q, (∀ fuel, (max 1 ((wallTracer (fun _ => Vec3f.splat 1) 0 3).settings.maxBounces
          - 0)).toNat ≤ fuel →
        generalizedShadowRay (wallTracer (fun _ => Vec3f.splat 1) 0 3) fuel zRay none none 0
          = some (v, q)) ∧
      1 ≤ q ∧ (q : Int) ≤ max 1 ((wallTracer (fun _ => Vec3f.splat 1) 0 3).settings.maxBounces
        - 0) :=
  ⟨by
    simp [generalizedShadowRay, shadowRayLoop, shadowRayIteration, shadowRayInit,
      wallTracer, wallScene, zRay, makeLocalScatterEvent,
      SurfaceScatterEvent.makeForwardEvent, Vec3f.eqScalar, Vec3f.splat, Vec3f.mul, int32Wrap],
   generalizedShadowRay_terminates (wallTracer (fun _ => Vec3f.splat 1) 0 3) zRay none none 0
    (by decide) (by decide) (by decide)⟩

/-- C8 as stated fails: started at the bounce count `INT_MAX = 2147483647` with
`maxBounces` 8, in a scene with one transparent wall and nothing behind it,
the increment wraps to `INT_MIN`, the walk goes on and returns after two scene
intersection queries, more than `max(1, 8 - 2147483647) = 1`; after one
iteration it has not returned. -/
theorem generalizedShadowRay_int_max_counterexample :
    generalizedShadowRay singleWallTracer 2 zRay none none 2147483647
      = some (Vec3f.splat 0, 2) ∧
    generalizedShadowRay singleWallTracer 1 zRay none none 2147483647 = none ∧
    max 1 (singleWallTracer.settings.maxBounces - 2147483647) = 1 ∧
    ¬ (∃ v q, (∀ fuel, (max 1 (singleWallTracer.settings.maxBounces - 2147483647)).toNat ≤ fuel →
        generalizedShadowRay singleWallTracer fuel zRay none none 2147483647 = some (v, q)) ∧
      1 ≤ q ∧ (q : Int) ≤ max 1 (singleWallTracer.settings.maxBounces - 2147483647)) := by
  have h2 : generalizedShadowRay singleWallTracer 2 zRay none none 2147483647
      = some (Vec3f.splat 0, 2) := by
    simp [generalizedShadowRay, shadowRayLoop, shadowRayIteration, shadowRayInit,
      singleWallTracer, singleWallScene, zRay, makeLocalScatterEvent,
      SurfaceScatterEvent.makeForwardEvent, Vec3f.eqScalar, Vec3f.splat, Vec3f.mul, Vec3f.add,
      Vec3f.scale, Ray.hitpoint, int32Wrap]
  have h1 : generalizedShadowRay singleWallTracer 1 zRay none none 2147483647 = none := by
    simp [generalizedShadowRay, shadowRayLoop, shadowRayIteration, shadowRayInit,
      singleWallTracer, singleWallScene, zRay, makeLocalScatterEvent,
      SurfaceScatterEvent.makeForwardEvent, Vec3f.eqScalar, Vec3f.splat, Vec3f.mul, Vec3f.add,
      Vec3f.scale, Ray.hitpoint, int32Wrap]
  have hm : max 1 (singleWallTracer.settings.maxBounces - 2147483647) = 1 := by
    simp [singleWallTracer]
  refine ⟨h2, h1, hm, ?_⟩
  rintro ⟨v, q, hall, _, _⟩
  have := hall 1 (by rw [hm]; decide)
  rw [h1] at this
  exact absurd this (by simp)

/-! ## MIS weights and the consistency check: the claims -/

/-- C9: the power heuristic satisfies `weight(a,b) + weight(b,a) = 1` for all
`a, b > 0`, `weight(a,0) = 1` for `a > 0` and `weight(0,b) = 0` for `b > 0`;
so for a non-Dirac light the factors `lightSample` and `bsdfSample` apply for
the same pair of pdfs sum to 1. -/
theorem powerHeuristic_partition (a b : ℚ) (ha : 0 < a) (hb : 0 < b) :
    powerHeuristic a b + powerHeuristic b a = 1 ∧
    powerHeuristic a 0 = 1 ∧
    powerHeuristic 0 b = 0 ∧
    lightSampleMisWeight false a b + bsdfSampleMisWeight b a = 1 := by
  have ha2 : 0 < a * a := mul_pos ha ha
  have hb2 : 0 < b * b := mul_pos hb hb
  have hsum : powerHeuristic a b + powerHeuristic b a = 1 := by
    unfold powerHeuristic
    rw [add_comm (b * b) (a * a), ← add_div]
    exact div_self (by linarith)
  refine ⟨hsum, ?_, ?_, ?_⟩
  · unfold powerHeuristic
    rw [mul_zero, add_zero]
    exact div_self (ne_of_gt ha2)
  · unfold powerHeuristic
    rw [mul_zero, zero_div]
  · simpa [lightSampleMisWeight, bsdfSampleMisWeight] using hsum

/-- C9 at the pdfs 1 and 2: the weights are 1/5 and 4/5. -/
theorem powerHeuristic_partition_witness :
    powerHeuristic 1 2 + powerHeuristic 2 1 = 1 ∧
    powerHeuristic 1 0 = 1 ∧
    powerHeuristic 0 2 = 0 ∧
    lightSampleMisWeight false 1 2 + bsdfSampleMisWeight 2 1 = 1 :=
  powerHeuristic_partition 1 2 (by norm_num) (by norm_num)

/-- C10: when consistency checks are disabled in the settings, `isConsistent`
returns true for every scatter event and every direction. -/
theorem isConsistent_disabled (tb : TraceBase) (event : SurfaceScatterEvent) (w : Vec3f)
    (h : tb.settings.enableConsistencyChecks = false) :
    isConsistent tb event w = true := by
  simp [isConsistent, h]

/-- C10 at a tracer with the checks disabled, for a direction below the geometric
normal of an event whose local outgoing direction is not below the shading
normal. -/
theorem isConsistent_disabled_witness :
    isConsistent (wallTracer (fun _ => Vec3f.splat 1) 0 8)
      (makeLocalScatterEvent (wallTracer (fun _ => Vec3f.splat 1) 0 8) ⟨0⟩
        ⟨⟨0, 0, 1⟩, ⟨0, 0, 1⟩, ⟨0, 0, 1⟩, ⟨0, 0, 1⟩, 1 / 1000, 1, 0⟩ zRay)
      ⟨0, 0, -1⟩ = true :=
  isConsistent_disabled _ _ _ rfl

/-- C11 (as amended): when consistency checks are enabled, `isConsistent(event, w)`
returns false exactly when `(w . Ng < 0)` differs from `(event.wo.z < 0) XOR
flippedFrame`, where `event.wo` is the local outgoing direction stored in the
event; when the caller has stored `w` expressed in the event's local frame
there, this is the z component of `w` in the local shading frame. -/
theorem isConsistent_enabled (tb : TraceBase) (event : SurfaceScatterEvent) (w : Vec3f)
    (h : tb.settings.enableConsistencyChecks = true) :
    (isConsistent tb event w = false ↔
      decide (w.dot event.info.Ng < 0) ≠ xor (decide (event.wo.z < 0)) event.flippedFrame) ∧
    (event.wo = event.frame.toLocal w →
      (isConsistent tb event w = false ↔
        decide (w.dot event.info.Ng < 0)
          ≠ xor (decide ((event.frame.toLocal w).z < 0)) event.flippedFrame)) := by
  have key : isConsistent tb event w = false ↔
      decide (w.dot event.info.Ng < 0) ≠ xor (decide (event.wo.z < 0)) event.flippedFrame := by
    simp only [isConsistent, h, Bool.not_true, Bool.false_eq_true, if_false]
    cases decide (w.dot event.info.Ng < 0) <;>
      cases xor (decide (event.wo.z < 0)) event.flippedFrame <;> simp
  refine ⟨key, ?_⟩
  intro hwo
  rw [← hwo]
  exact key

/-- C11 (as amended) at a flipped event whose stored outgoing direction is +z, for
the direction -z. -/
theorem isConsistent_enabled_witness :
    isConsistent checkedTracer
        { makeLocalScatterEvent checkedTracer ⟨0⟩ flatHit zRay with wo := ⟨0, 0, 1⟩ } ⟨0, 0, -1⟩
        = false ↔
      decide ((⟨0, 0, -1⟩ : Vec3f).dot
          ({ makeLocalScatterEvent checkedTracer ⟨0⟩ flatHit zRay with
            wo := ⟨0, 0, 1⟩ } : SurfaceScatterEvent).info.Ng < 0) ≠
        xor (decide (({ makeLocalScatterEvent checkedTracer ⟨0⟩ flatHit zRay with
            wo := ⟨0, 0, 1⟩ } : SurfaceScatterEvent).wo.z < 0))
          ({ makeLocalScatterEvent checkedTracer ⟨0⟩ flatHit zRay with
            wo := ⟨0, 0, 1⟩ } : SurfaceScatterEvent).flippedFrame :=
  (isConsistent_enabled checkedTracer
    { makeLocalScatterEvent checkedTracer ⟨0⟩ flatHit zRay with wo := ⟨0, 0, 1⟩ } ⟨0, 0, -1⟩
    rfl).1

/-- C11 as stated fails: for two events that differ only in the stored outgoing
direction (-z and +z) and the same direction `w = -z`, `isConsistent` returns
false and true, although the z component of `w` in the local frame is the
same for both; at the first event the claimed equivalence is false. -/
theorem isConsistent_local_z_counterexample :
    ¬ (isConsistent checkedTracer
          { makeLocalScatterEvent checkedTracer ⟨0⟩ flatHit zRay with wo := ⟨0, 0, -1⟩ }
          ⟨0, 0, -1⟩ = false ↔
        decide ((⟨0, 0, -1⟩ : Vec3f).dot flatHit.Ng < 0) ≠
          xor (decide (((makeLocalScatterEvent checkedTracer ⟨0⟩ flatHit zRay).frame.toLocal
              ⟨0, 0, -1⟩).z < 0))
            (makeLocalScatterEvent checkedTracer ⟨0⟩ flatHit zRay).flippedFrame) ∧
    isConsistent checkedTracer
      { makeLocalScatterEvent checkedTracer ⟨0⟩ flatHit zRay with wo := ⟨0, 0, -1⟩ }
      ⟨0, 0, -1⟩ = false ∧
    isConsistent checkedTracer
      { makeLocalScatterEvent checkedTracer ⟨0⟩ flatHit zRay with wo := ⟨0, 0, 1⟩ }
      ⟨0, 0, -1⟩ = true := by
  refine ⟨?_, ?_, ?_⟩
  · simp [isConsistent, checkedTracer, makeLocalScatterEvent, emptyScene, flatHit, zRay,
      Vec3f.dot, Vec3f.neg, TangentFrame.toLocal]
  · simp [isConsistent, checkedTracer, makeLocalScatterEvent, emptyScene, flatHit, zRay,
      Vec3f.dot, Vec3f.neg, TangentFrame.toLocal]
  · simp [isConsistent, checkedTracer, makeLocalScatterEvent, emptyScene, flatHit, zRay,
      Vec3f.dot, Vec3f.neg, TangentFrame.toLocal]

/-- C12: `makeLocalScatterEvent` sets the frame-flip flag if and only if two-sided
shading is enabled, the normal of the hit's tangent frame has a strictly
positive dot product with the ray direction and the BSDF has no transmissive
lobe; when the flag is set, the event's frame is the hit's tangent frame with
normal and tangent negated, and the local incoming direction
`frame.toLocal(-ray.dir)` has strictly positive z. -/
theorem makeLocalScatterEvent_flip (tb : TraceBase) (data : IntersectionTemporary)
    (info : IntersectionInfo) (ray : Ray) :
    ((makeLocalScatterEvent tb data info ray).flippedFrame = true ↔
      (tb.settings.enableTwoSidedShading = true ∧
        0 < (tb.scene.setupTangentFrame info.primitive data info).normal.dot ray.dir ∧
        (tb.scene.lobes info.bsdf).isTransmissive = false)) ∧
    ((makeLocalScatterEvent tb data info ray).flippedFrame = true →
      (makeLocalScatterEvent tb data info ray).frame =
        { tb.scene.setupTangentFrame info.primitive data info with
          normal := (tb.scene.setupTangentFrame info.primitive data info).normal.neg
          tangent := (tb.scene.setupTangentFrame info.primitive data info).tangent.neg } ∧
      (makeLocalScatterEvent tb data info ray).wi =
        (makeLocalScatterEvent tb data info ray).frame.toLocal ray.dir.neg ∧
      0 < (makeLocalScatterEvent tb data info ray).wi.z) := by
  have hflag : (makeLocalScatterEvent tb data info ray).flippedFrame = true ↔
      (tb.settings.enableTwoSidedShading = true ∧
        0 < (tb.scene.setupTangentFrame info.primitive data info).normal.dot ray.dir ∧
        (tb.scene.lobes info.bsdf).isTransmissive = false) := by
    simp [makeLocalScatterEvent, and_assoc]
  refine ⟨hflag, ?_⟩
  intro hf
  obtain ⟨h2, hpos, htr⟩ := hflag.mp hf
  have hframe : (makeLocalScatterEvent tb data info ray).frame =
      { tb.scene.setupTangentFrame info.primitive data info with
        normal := (tb.scene.setupTangentFrame info.primitive data info).normal.neg
        tangent := (tb.scene.setupTangentFrame info.primitive data info).tangent.neg } := by
    simp [makeLocalScatterEvent, h2, hpos, htr]
  have hwi : (makeLocalScatterEvent tb data info ray).wi =
      (makeLocalScatterEvent tb data info ray).frame.toLocal ray.dir.neg := rfl
  refine ⟨hframe, hwi, ?_⟩
  rw [hwi, hframe]
  simp only [Vec3f.dot] at hpos
  simp only [TangentFrame.toLocal, Vec3f.dot, Vec3f.neg]
  linarith

/-- C12 at a backside hit of a non-transmissive surface with two-sided shading
enabled: the flag is set. -/
theorem makeLocalScatterEvent_flip_witness :
    (makeLocalScatterEvent checkedTracer ⟨0⟩ flatHit zRay).flippedFrame = true ∧
    0 < (makeLocalScatterEvent checkedTracer ⟨0⟩ flatHit zRay).wi.z :=
  have hf : (makeLocalScatterEvent checkedTracer ⟨0⟩ flatHit zRay).flippedFrame = true :=
    (makeLocalScatterEvent_flip checkedTracer ⟨0⟩ flatHit zRay).1.mpr
      ⟨rfl, by norm_num [checkedTracer, emptyScene, zRay, Vec3f.dot], rfl⟩
  ⟨hf, ((makeLocalScatterEvent_flip checkedTracer ⟨0⟩ flatHit zRay).2 hf).2.2⟩

/-- C13: if the lobes of the hit BSDF are purely specular or forward, `sampleDirect`
returns (0,0,0) without any call of the light's direction sampler, of the BSDF
sampler or of a shadow ray, and leaves the scatter event and the sampler as
they were, for every light, event, medium, bounce count and parent ray. -/
theorem sampleDirect_specular_or_forward (tb : TraceBase) (env : SamplingOracles)
    (light : PrimitivePtr) (event : SurfaceScatterEvent) (medium : Option MediumPtr)
    (bounce : Int) (parentRay : Ray) (sampler : SampleGenerator)
    (h : (tb.scene.lobes event.info.bsdf).isPureSpecular = true ∨
      (tb.scene.lobes event.info.bsdf).isForward = true) :
    (sampleDirect tb env light event medium bounce parentRay sampler).value
      = some (Vec3f.splat 0) ∧
    (sampleDirect tb env light event medium bounce parentRay sampler).trace = [] ∧
    (sampleDirect tb env light event medium bounce parentRay sampler).event = event ∧
    (sampleDirect tb env light event medium bounce parentRay sampler).sampler.pos = sampler.pos ∧
    (sampleDirect tb env light event medium bounce parentRay sampler).sampler.draws
      = sampler.draws := by
  have hc : ((tb.scene.lobes event.info.bsdf).isPureSpecular
      || (tb.scene.lobes event.info.bsdf).isForward) = true := by
    rcases h with h | h <;> simp [h]
  simp [sampleDirect, hc]

/-- C13 at a mirror lit by a point light. -/
theorem sampleDirect_specular_or_forward_witness :
    (sampleDirect (litTracer mirrorLobes (Vec3f.splat 1)) (lampOracles true 2) 0
      (makeLocalScatterEvent (litTracer mirrorLobes (Vec3f.splat 1)) ⟨0⟩ flatHit zRay) none 1
      zRay (constSampler (1 / 2))).value = some (Vec3f.splat 0) ∧
    (sampleDirect (litTracer mirrorLobes (Vec3f.splat 1)) (lampOracles true 2) 0
      (makeLocalScatterEvent (litTracer mirrorLobes (Vec3f.splat 1)) ⟨0⟩ flatHit zRay) none 1
      zRay (constSampler (1 / 2))).trace = [] :=
  ⟨(sampleDirect_specular_or_forward (litTracer mirrorLobes (Vec3f.splat 1)) (lampOracles true 2)
      0 (makeLocalScatterEvent (litTracer mirrorLobes (Vec3f.splat 1)) ⟨0⟩ flatHit zRay) none 1
      zRay (constSampler (1 / 2)) (Or.inl rfl)).1,
   (sampleDirect_specular_or_forward (litTracer mirrorLobes (Vec3f.splat 1)) (lampOracles true 2)
      0 (makeLocalScatterEvent (litTracer mirrorLobes (Vec3f.splat 1)) ⟨0⟩ flatHit zRay) none 1
      zRay (constSampler (1 / 2)) (Or.inl rfl)).2.1⟩

/-! ## Direct lighting: lemmas -/

theorem Vec3f.splat_zero_add (v : Vec3f) : (Vec3f.splat 0).add v = v := by
  cases v
  simp [Vec3f.splat, Vec3f.add]

/-- In a scene in which no ray hits anything and without a medium, the shadow ray
returns the throughput 1 when the bounce count has reached `minBounces`. -/
theorem generalizedShadowRayValue_miss (tb : TraceBase) (ray : Ray)
    (endCap : Option PrimitivePtr) (bounce : Int)
    (hempty : ∀ r, (tb.scene.intersect r).2 = none) :
    generalizedShadowRayValue tb ray none endCap bounce =
      if bounce ≥ tb.settings.minBounces then Vec3f.splat 1 else Vec3f.splat 0 := by
  have hpos : 1 ≤ shadowRayFuel tb.settings.maxBounces bounce := by
    unfold shadowRayFuel
    split <;> omega
  obtain ⟨k, hk⟩ : ∃ k, shadowRayFuel tb.settings.maxBounces bounce = k + 1 :=
    ⟨shadowRayFuel tb.settings.maxBounces bounce - 1, by omega⟩
  simp only [generalizedShadowRayValue, generalizedShadowRay, hk, shadowRayLoop,
    shadowRayIteration, shadowRayInit, hempty]

/-- In a scene in which no ray hits anything, the shadow ray through a medium
returns the transmittance of the medium over the ray when the bounce count
has reached `minBounces`. -/
theorem generalizedShadowRayValue_miss_medium (tb : TraceBase) (ray : Ray) (m : MediumPtr)
    (endCap : Option PrimitivePtr) (bounce : Int)
    (hempty : ∀ r, (tb.scene.intersect r).2 = none) :
    generalizedShadowRayValue tb ray (some m) endCap bounce =
      if bounce ≥ tb.settings.minBounces then
        (Vec3f.splat 1).mul (tb.scene.transmittance m
          { p := (tb.scene.intersect ray).1.pos, wi := (tb.scene.intersect ray).1.dir,
            maxT := (tb.scene.intersect ray).1.farT })
      else Vec3f.splat 0 := by
  have hpos : 1 ≤ shadowRayFuel tb.settings.maxBounces bounce := by
    unfold shadowRayFuel
    split <;> omega
  obtain ⟨k, hk⟩ : ∃ k, shadowRayFuel tb.settings.maxBounces bounce = k + 1 :=
    ⟨shadowRayFuel tb.settings.maxBounces bounce - 1, by omega⟩
  simp only [generalizedShadowRayValue, generalizedShadowRay, hk, shadowRayLoop,
    shadowRayIteration, shadowRayInit, hempty]

/-- For 32-bit values of `maxBounces` and of the bounce count, `generalizedShadowRay`
returns the value `generalizedShadowRayValue` whenever it is given at least
`shadowRayFuel` iterations. -/
theorem generalizedShadowRay_value (tb : TraceBase) (ray : Ray) (medium : Option MediumPtr)
    (endCap : Option PrimitivePtr) (bounce : Int) (fuel : Nat)
    (hlo : -2147483648 ≤ bounce) (hhi : bounce ≤ 2147483647)
    (hmax : tb.settings.maxBounces ≤ 2147483647)
    (hfuel : shadowRayFuel tb.settings.maxBounces bounce ≤ fuel) :
    ∃ q, generalizedShadowRay tb fuel ray medium endCap bounce
      = some (generalizedShadowRayValue tb ray medium endCap bounce, q) := by
  obtain ⟨r, hr⟩ := shadowRayLoop_fuel tb endCap (shadowRayInit ray medium bounce) hlo hhi hmax
  have hb : (shadowRayInit ray medium bounce).bounce = bounce := rfl
  rw [hb] at hr
  obtain ⟨k, rfl⟩ : ∃ k, fuel = shadowRayFuel tb.settings.maxBounces bounce + k :=
    ⟨fuel - shadowRayFuel tb.settings.maxBounces bounce, by omega⟩
  refine ⟨r.2, ?_⟩
  have hv : generalizedShadowRayValue tb ray medium endCap bounce = r.1 := by
    simp [generalizedShadowRayValue, generalizedShadowRay, hr]
  rw [hv]
  exact shadowRayLoop_mono tb endCap _ k _ _ hr

theorem attenuatedEmission_trace (tb : TraceBase) (env : SamplingOracles) (light : PrimitivePtr)
    (medium : Option MediumPtr) (expectedDist : ℚ) (data : IntersectionTemporary)
    (info : IntersectionInfo) (bounce : Int) (ray : Ray) :
    ∀ x ∈ (attenuatedEmission tb env light medium expectedDist data info bounce ray).trace,
      x = Effect.shadowRay light := by
  intro x hx
  unfold attenuatedEmission at hx
  cases hr : resolveLightHit env light expectedDist data ray with
  | none => simp [hr] at hx
  | some hit =>
    simp only [hr] at hx
    split at hx <;> simpa using hx

theorem lightSampleTerms_trace (tb : TraceBase) (env : SamplingOracles) (light : PrimitivePtr)
    (event : SurfaceScatterEvent) (medium : Option MediumPtr) (bounce : Int) (parentRay : Ray)
    (sampler : SampleGenerator) :
    ∀ x ∈ (lightSampleTerms tb env light event medium bounce parentRay sampler).2.2.2,
      x = Effect.lightDirectionSample light ∨ x = Effect.shadowRay light := by
  intro x hx
  simp only [lightSampleTerms] at hx
  cases hd : (env.sampleInboundDirection light tb.threadId event.info.p sampler).1 with
  | none =>
    simp only [hd, List.mem_singleton] at hx
    exact Or.inl hx
  | some sample =>
    simp only [hd] at hx
    split_ifs at hx
    all_goals
      rcases List.mem_cons.mp hx with h | h
      · exact Or.inl h
      · first
        | exact absurd h (List.not_mem_nil _)
        | exact Or.inr (attenuatedEmission_trace _ _ _ _ _ _ _ _ _ x h)

theorem volumeLightSampleTerms_trace (tb : TraceBase) (env : SamplingOracles)
    (event : VolumeScatterEvent) (light : PrimitivePtr) (medium : MediumPtr) (bounce : Int)
    (parentRay : Ray) (sampler : SampleGenerator) :
    ∀ x ∈ (volumeLightSampleTerms tb env event light medium bounce parentRay sampler).2.2.2,
      x = Effect.lightDirectionSample light ∨ x = Effect.shadowRay light := by
  intro x hx
  simp only [volumeLightSampleTerms] at hx
  cases hd : (env.sampleInboundDirection light tb.threadId event.p sampler).1 with
  | none =>
    simp only [hd, List.mem_singleton] at hx
    exact Or.inl hx
  | some sample =>
    simp only [hd] at hx
    split_ifs at hx
    all_goals
      rcases List.mem_cons.mp hx with h | h
      · exact Or.inl h
      · first
        | exact absurd h (List.not_mem_nil _)
        | exact Or.inr (attenuatedEmission_trace _ _ _ _ _ _ _ _ _ x h)

theorem lightSample_trace (tb : TraceBase) (env : SamplingOracles) (light : PrimitivePtr)
    (event : SurfaceScatterEvent) (medium : Option MediumPtr) (bounce : Int) (parentRay : Ray)
    (sampler : SampleGenerator) :
    (lightSample tb env light event medium bounce parentRay sampler).trace =
      (lightSampleTerms tb env light event medium bounce parentRay sampler).2.2.2 := by
  simp only [lightSample]
  cases (lightSampleTerms tb env light event medium bounce parentRay sampler).1 <;> rfl

theorem volumeLightSample_trace (tb : TraceBase) (env : SamplingOracles)
    (event : VolumeScatterEvent) (light : PrimitivePtr) (medium : MediumPtr) (performMis : Bool)
    (bounce : Int) (parentRay : Ray) (sampler : SampleGenerator) :
    (volumeLightSample tb env event light medium performMis bounce parentRay sampler).trace =
      (volumeLightSampleTerms tb env event light medium bounce parentRay sampler).2.2.2 := by
  simp only [volumeLightSample]
  cases (volumeLightSampleTerms tb env event light medium bounce parentRay sampler).1 <;> rfl

theorem lightSampleTerms_sample (tb : TraceBase) (env : SamplingOracles) (light : PrimitivePtr)
    (event : SurfaceScatterEvent) (medium : Option MediumPtr) (bounce : Int) (parentRay : Ray)
    (sampler : SampleGenerator) (sample : LightSample) (terms : LightTerms)
    (hs : (env.sampleInboundDirection light tb.threadId event.info.p sampler).1 = some sample)
    (ht : (lightSampleTerms tb env light event medium bounce parentRay sampler).1 = some terms) :
    terms.sample = sample := by
  simp only [lightSampleTerms, hs] at ht
  split_ifs at ht
  all_goals simp only [Option.some.injEq, reduceCtorEq] at ht
  rw [← ht]

theorem volumeLightSampleTerms_sample (tb : TraceBase) (env : SamplingOracles)
    (event : VolumeScatterEvent) (light : PrimitivePtr) (medium : MediumPtr) (bounce : Int)
    (parentRay : Ray) (sampler : SampleGenerator) (sample : LightSample) (terms : LightTerms)
    (hs : (env.sampleInboundDirection light tb.threadId event.p sampler).1 = some sample)
    (ht : (volumeLightSampleTerms tb env event light medium bounce parentRay sampler).1
      = some terms) :
    terms.sample = sample := by
  simp only [volumeLightSampleTerms, hs] at ht
  split_ifs at ht
  all_goals simp only [Option.some.injEq, reduceCtorEq] at ht
  rw [← ht]

/-! ## Direct lighting: the claims -/

/-- C14: for a Dirac light, `sampleDirect` on a BSDF that is neither purely specular
nor forward, and `volumeSampleDirect`, return what the light sampling returns:
zero at one of its early exits and otherwise exactly `f*e/pdf`, response times
attenuated emission over the light pdf, without a power-heuristic factor; the
BSDF sampler and the phase sampler are never called. -/
theorem sampleDirect_dirac (tb : TraceBase) (env : SamplingOracles) (light : PrimitivePtr)
    (event : SurfaceScatterEvent) (medium : Option MediumPtr) (bounce : Int) (parentRay : Ray)
    (sampler : SampleGenerator) (volEvent : VolumeScatterEvent) (volMedium : MediumPtr)
    (hD : env.isDirac light = true)
    (hs : (tb.scene.lobes event.info.bsdf).isPureSpecular = false)
    (hf : (tb.scene.lobes event.info.bsdf).isForward = false) :
    ((sampleDirect tb env light event medium bounce parentRay sampler).value =
        (match (lightSampleTerms tb env light event medium bounce parentRay sampler).1 with
          | none => some (Vec3f.splat 0)
          | some terms => (terms.f.mul terms.e).divScalar terms.sample.pdf) ∧
      (sampleDirect tb env light event medium bounce parentRay sampler).trace =
        (lightSample tb env light event medium bounce parentRay sampler).trace ∧
      (sampleDirect tb env light event medium bounce parentRay sampler).event =
        (lightSample tb env light event medium bounce parentRay sampler).event ∧
      (sampleDirect tb env light event medium bounce parentRay sampler).sampler =
        (lightSample tb env light event medium bounce parentRay sampler).sampler ∧
      ∀ b, Effect.bsdfSample b ∉
        (sampleDirect tb env light event medium bounce parentRay sampler).trace) ∧
    ((volumeSampleDirect tb env light volEvent volMedium bounce parentRay sampler).value =
        (match (volumeLightSampleTerms tb env volEvent light volMedium bounce parentRay
            sampler).1 with
          | none => some (Vec3f.splat 0)
          | some terms => (terms.f.mul terms.e).divScalar terms.sample.pdf) ∧
      volumeSampleDirect tb env light volEvent volMedium bounce parentRay sampler =
        volumeLightSample tb env volEvent light volMedium true bounce parentRay sampler ∧
      ∀ m, Effect.phaseSample m ∉
        (volumeSampleDirect tb env light volEvent volMedium bounce parentRay sampler).trace) := by
  have hsd : sampleDirect tb env light event medium bounce parentRay sampler =
      { value := (lightSample tb env light event medium bounce parentRay sampler).value.map
          (fun v => (Vec3f.splat 0).add v)
        event := (lightSample tb env light event medium bounce parentRay sampler).event
        sampler := (lightSample tb env light event medium bounce parentRay sampler).sampler
        trace := (lightSample tb env light event medium bounce parentRay sampler).trace } := by
    simp [sampleDirect, hs, hf, hD]
  have hls : (lightSample tb env light event medium bounce parentRay sampler).value =
      (match (lightSampleTerms tb env light event medium bounce parentRay sampler).1 with
        | none => some (Vec3f.splat 0)
        | some terms => (terms.f.mul terms.e).divScalar terms.sample.pdf) := by
    simp only [lightSample, hD]
    cases (lightSampleTerms tb env light event medium bounce parentRay sampler).1 <;> simp
  have hvd : volumeSampleDirect tb env light volEvent volMedium bounce parentRay sampler =
      volumeLightSample tb env volEvent light volMedium true bounce parentRay sampler := by
    simp [volumeSampleDirect, hD]
  have hvl : (volumeLightSample tb env volEvent light volMedium true bounce parentRay
        sampler).value =
      (match (volumeLightSampleTerms tb env volEvent light volMedium bounce parentRay
          sampler).1 with
        | none => some (Vec3f.splat 0)
        | some terms => (terms.f.mul terms.e).divScalar terms.sample.pdf) := by
    simp only [volumeLightSample, hD]
    cases (volumeLightSampleTerms tb env volEvent light volMedium bounce parentRay sampler).1
      <;> simp
  refine ⟨⟨?_, ?_, ?_, ?_, ?_⟩, ?_, hvd, ?_⟩
  · rw [hsd]
    simp only []
    rw [hls]
    cases (lightSampleTerms tb env light event medium bounce parentRay sampler).1 with
    | none => simp [Vec3f.splat_zero_add]
    | some terms =>
      cases (terms.f.mul terms.e).divScalar terms.sample.pdf <;> simp [Vec3f.splat_zero_add]
  · rw [hsd]
  · rw [hsd]
  · rw [hsd]
  · intro b hb
    rw [hsd] at hb
    simp only [lightSample_trace] at hb
    rcases lightSampleTerms_trace _ _ _ _ _ _ _ _ _ hb with h | h <;> cases h
  · rw [hvd, hvl]
  · intro m hm
    rw [hvd, volumeLightSample_trace] at hm
    rcases volumeLightSampleTerms_trace _ _ _ _ _ _ _ _ _ hm with h | h <;> cases h

/-- C14 at a diffuse surface lit by a point light of emission 4 sampled with pdf 2:
the contribution is `1*4/2`, and the BSDF sampler is not called. -/
theorem sampleDirect_dirac_witness :
    (sampleDirect (litTracer diffuseLobes (Vec3f.splat 1)) (lampOracles true 2) 0
      (litEvent diffuseLobes (Vec3f.splat 1)) none 1 zRay (constSampler (1 / 2))).value
      = some (Vec3f.splat 2) ∧
    ∀ b, Effect.bsdfSample b ∉
      (sampleDirect (litTracer diffuseLobes (Vec3f.splat 1)) (lampOracles true 2) 0
        (litEvent diffuseLobes (Vec3f.splat 1)) none 1 zRay (constSampler (1 / 2))).trace :=
  have h := sampleDirect_dirac (litTracer diffuseLobes (Vec3f.splat 1)) (lampOracles true 2) 0
    (litEvent diffuseLobes (Vec3f.splat 1)) none 1 zRay (constSampler (1 / 2)) originVolumeEvent 0
    rfl rfl rfl
  ⟨by
    rw [h.1.1]
    simp [lightSampleTerms, attenuatedEmission, resolveLightHit, lampOracles, litEvent,
      litTracer, litScene, plainSettings, isConsistent, Vec3f.eqScalar, Vec3f.splat, Vec3f.mul,
      Vec3f.divScalar,
      generalizedShadowRayValue_miss]
    norm_num, h.1.2.2.2.2⟩

/-- C15 (as amended): in `lightSample` and `volumeLightSample` the light-sample pdf
is not checked before the division.  Whenever the light's direction sampler
succeeds with a sample whose pdf is 0, the returned contribution is (0,0,0),
without a division, if one of the earlier exits applies (failed consistency
check, zero response, zero attenuated emission); otherwise the division by
the zero pdf is performed. -/
theorem lightSample_zero_pdf (tb : TraceBase) (env : SamplingOracles) (light : PrimitivePtr)
    (event : SurfaceScatterEvent) (medium : Option MediumPtr) (bounce : Int) (parentRay : Ray)
    (sampler : SampleGenerator) (volEvent : VolumeScatterEvent) (volMedium : MediumPtr)
    (performMis : Bool) (sample volSample : LightSample)
    (hs : (env.sampleInboundDirection light tb.threadId event.info.p sampler).1 = some sample)
    (hp : sample.pdf = 0)
    (hvs : (env.sampleInboundDirection light tb.threadId volEvent.p sampler).1 = some volSample)
    (hvp : volSample.pdf = 0) :
    ((lightSampleTerms tb env light event medium bounce parentRay sampler).1 = none →
      (lightSample tb env light event medium bounce parentRay sampler).value
        = some (Vec3f.splat 0)) ∧
    ((lightSampleTerms tb env light event medium bounce parentRay sampler).1 ≠ none →
      (lightSample tb env light event medium bounce parentRay sampler).value = none) ∧
    ((volumeLightSampleTerms tb env volEvent light volMedium bounce parentRay sampler).1 = none →
      (volumeLightSample tb env volEvent light volMedium performMis bounce parentRay
        sampler).value = some (Vec3f.splat 0)) ∧
    ((volumeLightSampleTerms tb env volEvent light volMedium bounce parentRay sampler).1 ≠ none →
      (volumeLightSample tb env volEvent light volMedium performMis bounce parentRay
        sampler).value = none) := by
  refine ⟨?_, ?_, ?_, ?_⟩
  · intro h
    simp [lightSample, h]
  · intro h
    cases ht : (lightSampleTerms tb env light event medium bounce parentRay sampler).1 with
    | none => exact absurd ht h
    | some terms =>
      have hz : terms.sample.pdf = 0 := by
        rw [lightSampleTerms_sample tb env light event medium bounce parentRay sampler sample
          terms hs ht]
        exact hp
      simp [lightSample, ht, hz, Vec3f.divScalar]
  · intro h
    simp [volumeLightSample, h]
  · intro h
    cases ht : (volumeLightSampleTerms tb env volEvent light volMedium bounce parentRay
        sampler).1 with
    | none => exact absurd ht h
    | some terms =>
      have hz : terms.sample.pdf = 0 := by
        rw [volumeLightSampleTerms_sample tb env volEvent light volMedium bounce parentRay
          sampler volSample terms hvs ht]
        exact hvp
      simp [volumeLightSample, ht, hz, Vec3f.divScalar]

/-- C15 (as amended) at a diffuse surface and a medium lit by a point light whose
sampler returns the pdf 0: no early exit applies and the division by zero is
performed. -/
theorem lightSample_zero_pdf_witness :
    (lightSample (litTracer diffuseLobes (Vec3f.splat 1)) (lampOracles true 0) 0
      (litEvent diffuseLobes (Vec3f.splat 1)) none 1 zRay (constSampler (1 / 2))).value = none :=
  (lightSample_zero_pdf (litTracer diffuseLobes (Vec3f.splat 1)) (lampOracles true 0) 0
    (litEvent diffuseLobes (Vec3f.splat 1)) none 1 zRay (constSampler (1 / 2)) originVolumeEvent 0
    true ⟨flatHit.p, ⟨0, 0, 1⟩, 5, 0⟩ ⟨⟨0, 0, 0⟩, ⟨0, 0, 1⟩, 5, 0⟩ rfl rfl rfl rfl).2.1
    (by
      simp [lightSampleTerms, attenuatedEmission, resolveLightHit, lampOracles, litEvent,
        litTracer, litScene, plainSettings, isConsistent, Vec3f.eqScalar, Vec3f.splat, Vec3f.mul,
        generalizedShadowRayValue_miss])

/-- C15 as stated fails: the direction sampler of the point light succeeds with a
sample of pdf 0, and neither `lightSample` nor `volumeLightSample` returns
(0,0,0): both divide `f*e` by the zero pdf. -/
theorem lightSample_pdf_check_counterexample :
    ((lampOracles true 0).sampleInboundDirection 0 0 flatHit.p (constSampler (1 / 2))).1
      = some ⟨flatHit.p, ⟨0, 0, 1⟩, 5, 0⟩ ∧
    (lightSample (litTracer diffuseLobes (Vec3f.splat 1)) (lampOracles true 0) 0
      (litEvent diffuseLobes (Vec3f.splat 1)) none 1 zRay (constSampler (1 / 2))).value
      ≠ some (Vec3f.splat 0) ∧
    (lightSample (litTracer diffuseLobes (Vec3f.splat 1)) (lampOracles true 0) 0
      (litEvent diffuseLobes (Vec3f.splat 1)) none 1 zRay (constSampler (1 / 2))).value = none ∧
    (volumeLightSample (litTracer diffuseLobes (Vec3f.splat 1)) (lampOracles true 0)
      originVolumeEvent 0 0 true 1 zRay (constSampler (1 / 2))).value = none := by
  have hl : (lightSample (litTracer diffuseLobes (Vec3f.splat 1)) (lampOracles true 0) 0
      (litEvent diffuseLobes (Vec3f.splat 1)) none 1 zRay (constSampler (1 / 2))).value
      = none := by
    simp [lightSample, lightSampleTerms, attenuatedEmission, resolveLightHit, lampOracles,
      litEvent, litTracer, litScene, plainSettings, isConsistent, Vec3f.eqScalar, Vec3f.splat,
      Vec3f.mul, Vec3f.divScalar,
      generalizedShadowRayValue_miss]
  refine ⟨rfl, ?_, hl, ?_⟩
  · rw [hl]
    simp
  · simp [volumeLightSample, volumeLightSampleTerms, attenuatedEmission, resolveLightHit,
      lampOracles, originVolumeEvent, litTracer, litScene, plainSettings, Vec3f.eqScalar,
      Vec3f.splat, Vec3f.mul, Vec3f.divScalar, generalizedShadowRayValue_miss_medium]

/-- C16 (as amended): for a non-Dirac light, `attenuatedEmission` returns (0,0,0)
whenever the ray does not intersect the light or the re-intersection distance
`t` falls short of the expected distance `d` beyond the tolerance,
`t*(1+1e-3) < d`; it also returns (0,0,0) whenever the generalized shadow ray
towards the light returns zero.  A distance `t` larger than `d` is not
rejected. -/
theorem attenuatedEmission_zero (tb : TraceBase) (env : SamplingOracles) (light : PrimitivePtr)
    (medium : Option MediumPtr) (expectedDist : ℚ) (data : IntersectionTemporary)
    (info : IntersectionInfo) (bounce : Int) (ray : Ray)
    (hD : env.isDirac light = false) :
    (env.lightIntersect light ray = none →
      (attenuatedEmission tb env light medium expectedDist data info bounce ray).value
        = Vec3f.splat 0) ∧
    (∀ ray' data', env.lightIntersect light ray = some (ray', data') →
      ray'.farT * (1 + 1 / 1000) < expectedDist →
      (attenuatedEmission tb env light medium expectedDist data info bounce ray).value
        = Vec3f.splat 0) ∧
    (∀ ray' data', env.lightIntersect light ray = some (ray', data') →
      (generalizedShadowRayValue tb ray' medium (some light) bounce).eqScalar 0 = true →
      (attenuatedEmission tb env light medium expectedDist data info bounce ray).value
        = Vec3f.splat 0) := by
  refine ⟨?_, ?_, ?_⟩
  · intro h
    simp [attenuatedEmission, resolveLightHit, hD, h]
  · intro ray' data' h hlt
    have hlt' : ray'.farT * fudgeFactor < expectedDist := hlt
    simp [attenuatedEmission, resolveLightHit, hD, h, hlt']
  · intro ray' data' h hz
    by_cases hlt : ray'.farT * fudgeFactor < expectedDist
    · simp [attenuatedEmission, resolveLightHit, hD, h, hlt]
    · simp [attenuatedEmission, resolveLightHit, hD, h, hlt, hz]

/-- C16 (as amended) at an area light hit at distance 2 when the distance 5 is
expected: `2*(1+1e-3) < 5`, the result is zero. -/
theorem attenuatedEmission_zero_witness :
    (attenuatedEmission (litTracer diffuseLobes (Vec3f.splat 1)) (lampOracles false 2) 0 none 5
      IntersectionTemporary.blank IntersectionInfo.blank 1 zRay).value = Vec3f.splat 0 :=
  (attenuatedEmission_zero (litTracer diffuseLobes (Vec3f.splat 1)) (lampOracles false 2) 0 none 5
    IntersectionTemporary.blank IntersectionInfo.blank 1 zRay rfl).2.1
    { zRay with farT := 2 } ⟨1⟩ rfl (by norm_num)

/-- C16 as stated fails: an area light hit at distance 2 when the distance 1 is
expected, `2 > 1*(1+1e-3)`, is accepted: the result is the emission (4,4,4). -/
theorem attenuatedEmission_far_hit_counterexample :
    (lampOracles false 2).isDirac 0 = false ∧
    (lampOracles false 2).lightIntersect 0 zRay = some ({ zRay with farT := 2 }, ⟨1⟩) ∧
    (0 : ℚ) ≤ 1 ∧ (2 : ℚ) > 1 * (1 + 1 / 1000) ∧
    (attenuatedEmission (litTracer diffuseLobes (Vec3f.splat 1)) (lampOracles false 2) 0 none 1
      IntersectionTemporary.blank IntersectionInfo.blank 1 zRay).value = Vec3f.splat 4 ∧
    (attenuatedEmission (litTracer diffuseLobes (Vec3f.splat 1)) (lampOracles false 2) 0 none 1
      IntersectionTemporary.blank IntersectionInfo.blank 1 zRay).value ≠ Vec3f.splat 0 := by
  have hv : (attenuatedEmission (litTracer diffuseLobes (Vec3f.splat 1)) (lampOracles false 2) 0
      none 1 IntersectionTemporary.blank IntersectionInfo.blank 1 zRay).value
      = Vec3f.splat 4 := by
    simp [attenuatedEmission, resolveLightHit, lampOracles, zRay, fudgeFactor, litTracer,
      litScene, plainSettings, Vec3f.eqScalar, Vec3f.splat, Vec3f.mul,
      generalizedShadowRayValue_miss]
    norm_num
  refine ⟨rfl, rfl, by norm_num, by norm_num, hv, ?_⟩
  rw [hv]
  simp [Vec3f.splat]

/-! ## Construction and scene export -/

/-- The constructor calls `makeSamplable` on a light as many times as twice the
number of its occurrences among the lights of the scene. -/
theorem construct_makeSamplable_count (scene : TraceableScene) (settings : TraceSettings)
    (threadId : Nat) (l : PrimitivePtr) :
    (TraceBase.construct scene settings threadId).makeSamplableCalls.count (l, threadId)
      = 2 * scene.lights.count l := by
  have h : ∀ ls : List PrimitivePtr,
      (ls.map (fun x => (x, threadId))).count (l, threadId) = ls.count l := by
    intro ls
    induction ls with
    | nil => rfl
    | cons a ls ih =>
      by_cases ha : a = l
      · subst ha
        simp [ih]
      · have : ¬ (a, threadId) = (l, threadId) := fun h => ha (Prod.mk.inj h).1
        simp [List.count_cons, ih, ha, this]
  simp only [TraceBase.construct, List.count_append, h]
  omega

/-- C17 (the code at a scene with the two lights 5 and 7, for worker 3):
`makeSamplable(3)` is called twice on each light, once in each of the two
loops of the constructor, not once. -/
theorem construct_makeSamplable_twice :
    (TraceBase.construct (emptyScene [5, 7] (fun _ => 0)) (plainSettings 0 8) 3).makeSamplableCalls
      = [(5, 3), (7, 3), (5, 3), (7, 3)] ∧
    (TraceBase.construct (emptyScene [5, 7] (fun _ => 0)) (plainSettings 0 8)
      3).makeSamplableCalls.count (5, 3) = 2 := by
  constructor
  · rfl
  · decide

/-- C18 (the code at a medium of an unrecognised kind, converted inside the
caller's block "shape"): the diagnostic is printed, but the trailing `end()`
closes the caller's block: the stack of open blocks and the indentation are
empty afterwards; with no open block, `end()` is applied to the empty stack.
A texture of an unrecognised kind leaves stack and indentation as they were. -/
theorem convertMedium_unrecognised :
    (SceneXmlWriter.convertMedium (fun _ => "0") shapeWriter foreignMedium).map
        (fun w => (w.blocks, w.indent, w.diagnostics))
      = some ([], [], ["Unknown medium type!"]) ∧
    shapeWriter.blocks = ["shape"] ∧ shapeWriter.indent = [SceneXmlWriter.tab] ∧
    SceneXmlWriter.convertMedium (fun _ => "0") ⟨[], [], [], []⟩ foreignMedium = none ∧
    (SceneXmlWriter.convertTexture (fun _ => "0") shapeWriter "albedo" TextureKind.Other).map
        (fun w => (w.blocks, w.indent, w.diagnostics))
      = some (["shape"], [SceneXmlWriter.tab], ["Unknown texture type!"]) := by
  refine ⟨?_, rfl, rfl, ?_, ?_⟩
  · simp [SceneXmlWriter.convertMedium, SceneXmlWriter.endBlock, SceneXmlWriter.dbg, shapeWriter,
      foreignMedium]
  · simp [SceneXmlWriter.convertMedium, SceneXmlWriter.endBlock, SceneXmlWriter.dbg,
      foreignMedium]
  · simp [SceneXmlWriter.convertTexture, SceneXmlWriter.dbg, shapeWriter]

/-- For every writer state with an open block, the conversion of a medium of an
unrecognised kind with isotropic phase function pops the caller's block and
removes one level of indentation. -/
theorem convertMedium_unrecognised_pops (fmt : ℚ → String) (w : SceneXmlWriter)
    (top : String) (rest : List String) (med : ExportedMedium)
    (hb : w.blocks = top :: rest) (hi : w.indent ≠ [])
    (hk : med.kind = MediumKind.Other) (hp : med.phaseFunctionType = PhaseFunction.Isotropic) :
    (SceneXmlWriter.convertMedium fmt w med).map (fun w' => (w'.blocks, w'.indent))
      = some (rest, w.indent.dropLast) := by
  simp [SceneXmlWriter.convertMedium, SceneXmlWriter.endBlock, SceneXmlWriter.dbg, hb, hi, hk, hp]

/-! ## Surface handler: the claims -/

/-- C20: in `handleSurface`, for a supplemental draw `u` in `[0,1)` with
`u < avg(transparency)`: the call returns true; the new ray starts at the hit
point with the direction of the incoming ray; the throughput is multiplied
componentwise by `transparency/avg(transparency)`, where `avg(transparency)`
is positive; the accumulated emission, the was-specular flag and the ray's
primary flag are unchanged; and neither direct lighting nor BSDF sampling is
run (no recorded call, sampler and event as they were). -/
theorem handleSurface_pass_through (tb : TraceBase) (env : SamplingOracles)
    (data : IntersectionTemporary) (info : IntersectionInfo) (bounce : Int)
    (adjoint enableLightSampling : Bool) (st : SurfaceState)
    (hu0 : 0 ≤ st.supplementalSampler.next1D.1)
    (hu : st.supplementalSampler.next1D.1
      < (tb.scene.eval info.bsdf st.event.makeForwardEvent false).avg) :
    0 < (tb.scene.eval info.bsdf st.event.makeForwardEvent false).avg ∧
    ∃ r, handleSurface tb env data info bounce adjoint enableLightSampling st = some r ∧
      r.ok = true ∧
      r.st.ray.pos = st.ray.hitpoint ∧
      r.st.ray.dir = st.ray.dir ∧
      r.st.throughput = st.throughput.mul
        ⟨(tb.scene.eval info.bsdf st.event.makeForwardEvent false).x
            / (tb.scene.eval info.bsdf st.event.makeForwardEvent false).avg,
          (tb.scene.eval info.bsdf st.event.makeForwardEvent false).y
            / (tb.scene.eval info.bsdf st.event.makeForwardEvent false).avg,
          (tb.scene.eval info.bsdf st.event.makeForwardEvent false).z
            / (tb.scene.eval info.bsdf st.event.makeForwardEvent false).avg⟩ ∧
      r.st.emission = st.emission ∧
      r.st.wasSpecular = st.wasSpecular ∧
      r.st.ray.primaryRay = st.ray.primaryRay ∧
      r.trace = [] ∧
      r.st.sampler = st.sampler ∧
      r.st.event = st.event := by
  have hpos : 0 < (tb.scene.eval info.bsdf st.event.makeForwardEvent false).avg :=
    lt_of_le_of_lt hu0 hu
  refine ⟨hpos, ?_⟩
  simp [handleSurface, hu, Vec3f.divScalar, ne_of_gt hpos, surfaceContinue, Ray.scatter]

/-- C20 at a hit of a surface with pass-through response (1,1,1) and the
supplemental draw 1/2. -/
theorem handleSurface_pass_through_witness :
    ∃ r, handleSurface (litTracer diffuseLobes (Vec3f.splat 1)) (lampOracles true 2) ⟨0⟩ flatHit 0
        false true (litSurfaceState diffuseLobes (Vec3f.splat 1)) = some r ∧
      r.ok = true ∧ r.st.emission = Vec3f.splat 1 ∧ r.st.wasSpecular = true ∧ r.trace = [] := by
  obtain ⟨_, r, hr, hok, _, _, _, hem, hws, _, htr, _, _⟩ :=
    handleSurface_pass_through (litTracer diffuseLobes (Vec3f.splat 1)) (lampOracles true 2) ⟨0⟩
      flatHit 0 false true (litSurfaceState diffuseLobes (Vec3f.splat 1))
      (by norm_num [litSurfaceState, constSampler, SampleGenerator.next1D])
      (by
        simp [litSurfaceState, constSampler, SampleGenerator.next1D, litTracer, litScene,
          Vec3f.avg, Vec3f.splat]
        norm_num)
  exact ⟨r, hr, hok, hem, hws, htr⟩

/-! ## Volume handler: the claim -/

/-- C21: `handleVolume` returns false if and only if the medium's distance sampling
fails, or the sampled distance lies inside the medium (`t < maxT`) and the
medium absorbs the path (the call of `absorb` at line 447 returns true) or the
medium's scatter fails (the call of `scatter` at line 449 returns false);
whenever it returns true the `hitSurface` output equals `(t >= maxT)`; and in
that boundary case the ray is left unchanged and neither absorption,
scattering nor volumetric direct lighting is evaluated: the only call is the
distance sampling, and the outcome is the same for every other scene, every
other set of sampling oracles and every other absorption method. -/
theorem handleVolume_returns (tb : TraceBase) (env : SamplingOracles) (med : MediumOracles)
    (bounce : Int) (adjoint enableLightSampling : Bool) (emission : Vec3f) (st : VolumeState) :
    ((handleVolume tb env med bounce adjoint enableLightSampling emission st).ok = false ↔
      ((volumeDistance med st).flag = false ∨
        ((volumeDistance med st).event.t < (volumeDistance med st).event.maxT ∧
          ((volumeAbsorb tb env med bounce adjoint enableLightSampling st).flag = true ∨
            (volumeScatter tb env med bounce adjoint enableLightSampling st).1 = false)))) ∧
    ((handleVolume tb env med bounce adjoint enableLightSampling emission st).ok = true →
      (handleVolume tb env med bounce adjoint enableLightSampling emission st).st.hitSurface
        = decide ((volumeDistance med st).event.t ≥ (volumeDistance med st).event.maxT)) ∧
    ((handleVolume tb env med bounce adjoint enableLightSampling emission st).ok = true →
      (volumeDistance med st).event.t ≥ (volumeDistance med st).event.maxT →
      (handleVolume tb env med bounce adjoint enableLightSampling emission st).st.ray = st.ray ∧
      (handleVolume tb env med bounce adjoint enableLightSampling emission st).calls
        = [VolumeCall.sampleDistance true] ∧
      (handleVolume tb env med bounce adjoint enableLightSampling emission st).trace = [] ∧
      ∀ (tb' : TraceBase) (env' : SamplingOracles) (med' : MediumOracles),
        tb'.settings = tb.settings → med'.sampleDistance = med.sampleDistance →
        med'.emission = med.emission →
        handleVolume tb' env' med' bounce adjoint enableLightSampling emission st
          = handleVolume tb env med bounce adjoint enableLightSampling emission st) := by
  cases hf : (volumeDistance med st).flag
  · simp [handleVolume, hf]
  · by_cases ht : (volumeDistance med st).event.t < (volumeDistance med st).event.maxT
    · have hnt : ¬ (volumeDistance med st).event.maxT ≤ (volumeDistance med st).event.t :=
        not_le.mpr ht
      cases ha : (volumeAbsorb tb env med bounce adjoint enableLightSampling st).flag
      · cases hs : (volumeScatter tb env med bounce adjoint enableLightSampling st).1
        · simp [handleVolume, hf, ht, hnt, ha, hs]
        · simp [handleVolume, hf, ht, hnt, ha, hs]
      · simp [handleVolume, hf, ht, hnt, ha]
    · have hge : (volumeDistance med st).event.maxT ≤ (volumeDistance med st).event.t :=
        not_lt.mp ht
      refine ⟨by simp [handleVolume, hf, ht], by simp [handleVolume, hf, ht, hge], ?_⟩
      intro _ _
      refine ⟨by simp [handleVolume, hf, ht], by simp [handleVolume, hf, ht],
        by simp [handleVolume, hf, ht], ?_⟩
      intro tb' env' med' hset hsd hem
      have hd' : volumeDistance med' st = volumeDistance med st := by
        simp [volumeDistance, hsd]
      simp [handleVolume, hd', hf, ht, hset, hem]

/-- C21 at a medium that absorbs the path at the distance 5 inside the far bound 10,
with direct lighting evaluated, and at a medium whose sampled distance 20
reaches the boundary. -/
theorem handleVolume_returns_witness :
    (handleVolume (litTracer diffuseLobes (Vec3f.splat 1)) (lampOracles true 2)
      (fogOracles 5 true) 0 false true (Vec3f.splat 1) fogState).ok = false ∧
    (handleVolume (litTracer diffuseLobes (Vec3f.splat 1)) (lampOracles true 2)
      (fogOracles 5 false) 0 false true (Vec3f.splat 1) fogState).ok = true ∧
    (handleVolume (litTracer diffuseLobes (Vec3f.splat 1)) (lampOracles true 2)
      (fogOracles 20 false) 0 false true (Vec3f.splat 1) fogState).st.hitSurface = true :=
  have hin : (volumeDistance (fogOracles 5 true) fogState).event.t
      < (volumeDistance (fogOracles 5 true) fogState).event.maxT := by
    norm_num [volumeDistance, volumeEvent, fogOracles, fogState, zRay]
  have hout : (volumeDistance (fogOracles 20 false) fogState).event.t
      ≥ (volumeDistance (fogOracles 20 false) fogState).event.maxT := by
    norm_num [volumeDistance, volumeEvent, fogOracles, fogState, zRay]
  have hok : (handleVolume (litTracer diffuseLobes (Vec3f.splat 1)) (lampOracles true 2)
      (fogOracles 20 false) 0 false true (Vec3f.splat 1) fogState).ok = true := by
    have h := (handleVolume_returns (litTracer diffuseLobes (Vec3f.splat 1))
      (lampOracles true 2) (fogOracles 20 false) 0 false true (Vec3f.splat 1) fogState).1
    cases hb : (handleVolume (litTracer diffuseLobes (Vec3f.splat 1)) (lampOracles true 2)
      (fogOracles 20 false) 0 false true (Vec3f.splat 1) fogState).ok with
    | true => rfl
    | false =>
      rcases h.mp hb with hflag | ⟨hlt, _⟩
      · simp [volumeDistance, fogOracles] at hflag
      · exact absurd hlt (not_lt.mpr hout)
  ⟨(handleVolume_returns (litTracer diffuseLobes (Vec3f.splat 1)) (lampOracles true 2)
      (fogOracles 5 true) 0 false true (Vec3f.splat 1) fogState).1.mpr
      (Or.inr ⟨hin, Or.inl (by
        simp only [volumeAbsorb, fogOracles]
        split_ifs <;> rfl)⟩),
   by
    have h := (handleVolume_returns (litTracer diffuseLobes (Vec3f.splat 1))
      (lampOracles true 2) (fogOracles 5 false) 0 false true (Vec3f.splat 1) fogState).1
    cases hb : (handleVolume (litTracer diffuseLobes (Vec3f.splat 1)) (lampOracles true 2)
      (fogOracles 5 false) 0 false true (Vec3f.splat 1) fogState).ok with
    | true => rfl
    | false =>
      rcases h.mp hb with hflag | ⟨_, habs | hsc⟩
      · simp [volumeDistance, fogOracles] at hflag
      · simp only [volumeAbsorb, fogOracles] at habs
        split_ifs at habs
      · simp [volumeScatter, lampOracles] at hsc,
   by
    rw [(handleVolume_returns (litTracer diffuseLobes (Vec3f.splat 1)) (lampOracles true 2)
      (fogOracles 20 false) 0 false true (Vec3f.splat 1) fogState).2.1 hok]
    simpa using hout⟩

end Tungsten
